import Mathlib

/-!
# School fees management: the student routes of `index.js`

A shallow embedding of the four Express handlers of `src/index.js`
(`GET /students`, `GET /student/:id`, `POST /student`, `PUT /student/:id/pay`)
together with the part of the JavaScript value semantics they rely on:
truthiness (`!x`, `x || y`), `Number(x)`, `x <= 0` and `x + y` on numbers.

Modelling conventions.

* A JavaScript number is `NaN`, `+Infinity`, `-Infinity` or a finite IEEE-754 double.
  A finite double is written as the rational it is equal to (`JSNumber.isDouble`), and
  `-0` is written as `0`. Sums and `Number(string)` round to the nearest double, ties
  to even, and overflow to an infinity (`roundToDouble`).
* A request body is the value produced by the JSON body parser, so every number in
  it is a double (`JSValue.isParsed`); a property that is absent reads as `undefined`.
* `Number(x)` throws a `TypeError` when `x` is, or is an array that holds, a parsed
  object with an own property `toString`. In `PUT /student/:id/pay` the first call of
  `Number` stands before the `try`, so such a request is not answered: the handler
  returns `none`.
* The handlers are written against the Sequelize model `Student`; its four
  operations `findAll`, `findByPk`, `create`, `save` are the fields of
  `StudentModel`, each of which may raise an exception carrying a message.
  `Store.model` is the table these operations act on when the database is up:
  `create` applies the checks Sequelize makes for a STRING attribute and stores what
  the STRING and FLOAT columns hold for the values written to them.
* The route parameter `:id` is identified with the primary key it denotes.
* `Body.student row` is the call `res.json(row)`; the JSON text written for it has
  `null` in place of a `NaN` or infinite number (`JSNumber.toJSON`).
-/

namespace SchoolFees

/-! ## JavaScript numbers -/

/-- JavaScript number values. -/
inductive JSNumber where
  | nan
  | posInf
  | negInf
  | fin (q : ℚ)
deriving DecidableEq

/-! ### Rounding a rational to the nearest double -/

/-- Does `2 ^ e ≤ num / den` hold (for `den > 0`). -/
def geTwoPow (num den : Nat) (e : Int) : Bool :=
  if 0 ≤ e then decide (den * 2 ^ e.toNat ≤ num) else decide (den ≤ num * 2 ^ (-e).toNat)

/-- Binary search for the largest `e` in `[lo, lo + width)` with `2 ^ e ≤ num / den`;
`lo` when there is none. -/
def searchExponent (num den : Nat) : Nat → Int → Nat → Int
  | 0, lo, _ => lo
  | steps + 1, lo, width =>
    if geTwoPow num den (lo + (width / 2 : Nat)) then
      searchExponent num den steps (lo + (width / 2 : Nat)) (width - width / 2)
    else searchExponent num den steps lo (width / 2)

/-- The binary exponent of `num / den` within the range of doubles: `e` with
`2 ^ e ≤ num / den < 2 ^ (e + 1)` when `-1022 ≤ e < 1024`, `-1022` for a smaller value
(the subnormal range) and `1024` for a larger one. -/
def binaryExponent (num den : Nat) : Int := searchExponent num den 11 (-1022) 2047

/-- Nearest natural number to `n / d`, a tie going to the even one. -/
def roundHalfEven (n d : Nat) : Nat :=
  let q := n / d
  let r := n % d
  if 2 * r < d then q
  else if d < 2 * r then q + 1
  else if q % 2 = 0 then q else q + 1

/-- The double nearest to `num / den > 0`, as `(m, k)` standing for `m * 2 ^ k` with a
53-bit significand `m`; `none` when the value rounds past the largest double. -/
def roundMagnitude (num den : Nat) : Option (Nat × Int) :=
  let e := binaryExponent num den
  let k : Int := e - 52
  let m := if 0 ≤ k then roundHalfEven num (den * 2 ^ k.toNat)
    else roundHalfEven (num * 2 ^ (-k).toNat) den
  if 1024 ≤ e ∨ (e = 1023 ∧ m = 2 ^ 53) then none else some (m, k)

/-- IEEE-754 binary64 rounding of a rational: round to nearest, ties to even, overflow
to an infinity. -/
def roundToDouble (q : ℚ) : JSNumber :=
  if q = 0 then JSNumber.fin 0
  else match roundMagnitude q.num.natAbs q.den with
    | none => if 0 < q then JSNumber.posInf else JSNumber.negInf
    | some (m, k) =>
      if 0 < q then JSNumber.fin ((m : ℚ) * (2 : ℚ) ^ k)
      else JSNumber.fin (-((m : ℚ) * (2 : ℚ) ^ k))

namespace JSNumber

/-- Is the value a JavaScript number: a finite value has to be a double. -/
def isDouble : JSNumber → Bool
  | fin q => decide (roundToDouble q = fin q)
  | _ => true

/-- Truthiness of a number: `0` and `NaN` are falsy. -/
def truthy : JSNumber → Bool
  | nan => false
  | posInf => true
  | negInf => true
  | fin q => decide (q ≠ 0)

/-- The JavaScript comparison `x <= y` on numbers (false when either side is `NaN`). -/
def le : JSNumber → JSNumber → Bool
  | nan, _ => false
  | _, nan => false
  | negInf, _ => true
  | _, posInf => true
  | posInf, _ => false
  | _, negInf => false
  | fin a, fin b => decide (a ≤ b)

/-- The JavaScript comparison `x < y` on numbers (false when either side is `NaN`). -/
def lt : JSNumber → JSNumber → Bool
  | nan, _ => false
  | _, nan => false
  | posInf, _ => false
  | _, negInf => false
  | negInf, _ => true
  | _, posInf => true
  | fin a, fin b => decide (a < b)

/-- The JavaScript sum `x + y` of two numbers: the exact sum of two doubles, rounded
to the nearest double. -/
def add : JSNumber → JSNumber → JSNumber
  | nan, _ => nan
  | _, nan => nan
  | posInf, negInf => nan
  | negInf, posInf => nan
  | posInf, _ => posInf
  | _, posInf => posInf
  | negInf, _ => negInf
  | _, negInf => negInf
  | fin a, fin b => roundToDouble (a + b)

end JSNumber

/-! ## `Number(string)`: the StringToNumber conversion -/

/-- White space and line terminators that StringToNumber strips from both ends. -/
def isStrWhiteSpaceChar (c : Char) : Bool :=
  let n := c.toNat
  n == 0x09 || n == 0x0A || n == 0x0B || n == 0x0C || n == 0x0D || n == 0x20 ||
  n == 0xA0 || n == 0x1680 || (0x2000 ≤ n && n ≤ 0x200A) || n == 0x2028 ||
  n == 0x2029 || n == 0x202F || n == 0x205F || n == 0x3000 || n == 0xFEFF

/-- Strip StrWhiteSpace from both ends. -/
def trimStrWhiteSpace (cs : List Char) : List Char :=
  ((cs.dropWhile isStrWhiteSpaceChar).reverse.dropWhile isStrWhiteSpaceChar).reverse

/-- Value of a digit character in the given radix (2, 8, 10 or 16). -/
def digitValue (radix : Nat) (c : Char) : Option Nat :=
  let n := c.toNat
  let v : Option Nat :=
    if 48 ≤ n ∧ n ≤ 57 then some (n - 48)
    else if 97 ≤ n ∧ n ≤ 102 then some (n - 87)
    else if 65 ≤ n ∧ n ≤ 70 then some (n - 55)
    else none
  match v with
  | some d => if d < radix then some d else none
  | none => none

/-- Digits read most significant first; `none` as soon as a character is not a digit. -/
def parseDigitsAux (radix : Nat) : List Char → Nat → Option Nat
  | [], acc => some acc
  | c :: cs, acc =>
    match digitValue radix c with
    | some d => parseDigitsAux radix cs (acc * radix + d)
    | none => none

/-- A possibly empty run of digits. -/
def parseDigits? (radix : Nat) (cs : List Char) : Option Nat :=
  parseDigitsAux radix cs 0

/-- A non-empty run of digits. -/
def parseDigits (radix : Nat) (cs : List Char) : Option Nat :=
  match cs with
  | [] => none
  | _ => parseDigitsAux radix cs 0

/-- SignedInteger of an ExponentPart: optional sign, then decimal digits. -/
def parseSignedInteger (cs : List Char) : Option Int :=
  match cs with
  | '+' :: ds => (parseDigits 10 ds).map Int.ofNat
  | '-' :: ds => (parseDigits 10 ds).map (fun n => - Int.ofNat n)
  | ds => (parseDigits 10 ds).map Int.ofNat

/-- Is the character the exponent indicator `e` or `E`. -/
def isExponentIndicator (c : Char) : Bool := c == 'e' || c == 'E'

/-- The mantissa `DecimalDigits . DecimalDigits?`, `. DecimalDigits` or `DecimalDigits`. -/
def parseMantissa (cs : List Char) : Option ℚ :=
  let ip := cs.takeWhile (fun c => c != '.')
  match cs.dropWhile (fun c => c != '.') with
  | [] => (parseDigits 10 ip).map (fun n => (n : ℚ))
  | _ :: fp =>
    match ip, fp with
    | [], [] => none
    | _, _ =>
      match parseDigits? 10 ip, parseDigits? 10 fp with
      | some i, some f => some ((i : ℚ) + (f : ℚ) / (10 : ℚ) ^ fp.length)
      | _, _ => none

/-- Mathematical value of a StrUnsignedDecimalLiteral other than `Infinity`. -/
def parseUnsignedDecimal (cs : List Char) : Option ℚ :=
  let m := cs.takeWhile (fun c => !isExponentIndicator c)
  match cs.dropWhile (fun c => !isExponentIndicator c) with
  | [] => parseMantissa m
  | _ :: ex =>
    match parseMantissa m, parseSignedInteger ex with
    | some q, some e => some (q * (10 : ℚ) ^ e)
    | _, _ => none

/-- StrUnsignedDecimalLiteral: the mathematical value of the literal, rounded to a
double. -/
def parseUnsignedDecimalLiteral (cs : List Char) : JSNumber :=
  if cs = "Infinity".toList then JSNumber.posInf
  else match parseUnsignedDecimal cs with
    | some q => roundToDouble q
    | none => JSNumber.nan

/-- Negation of a number, for a literal with a leading minus sign. -/
def JSNumber.neg : JSNumber → JSNumber
  | .nan => .nan
  | .posInf => .negInf
  | .negInf => .posInf
  | .fin q => .fin (-q)

/-- NonDecimalIntegerLiteral: digits after a `0x`, `0o` or `0b` prefix. -/
def parseNonDecimal (radix : Nat) (ds : List Char) : JSNumber :=
  match parseDigits radix ds with
  | some n => roundToDouble (n : ℚ)
  | none => JSNumber.nan

/-- The abstract operation StringToNumber behind `Number(s)` for a string `s`. -/
def stringToNumber (s : String) : JSNumber :=
  match trimStrWhiteSpace s.toList with
  | [] => JSNumber.fin 0
  | '0' :: 'x' :: ds => parseNonDecimal 16 ds
  | '0' :: 'X' :: ds => parseNonDecimal 16 ds
  | '0' :: 'o' :: ds => parseNonDecimal 8 ds
  | '0' :: 'O' :: ds => parseNonDecimal 8 ds
  | '0' :: 'b' :: ds => parseNonDecimal 2 ds
  | '0' :: 'B' :: ds => parseNonDecimal 2 ds
  | '+' :: ds => parseUnsignedDecimalLiteral ds
  | '-' :: ds => (parseUnsignedDecimalLiteral ds).neg
  | ds => parseUnsignedDecimalLiteral ds

/-! ## JavaScript values as they arrive in a parsed JSON body -/

/-- Values of a parsed JSON body, with `undefined` for an absent property. A number
in a parsed body is a double. -/
inductive JSValue where
  | undefined
  | null
  | bool (b : Bool)
  | number (n : JSNumber)
  | string (s : String)
  | array (items : List JSValue)
  | object (fields : List (String × JSValue))

/-- Does the object with these own properties have the own property `key`. -/
def hasOwnProperty (fields : List (String × JSValue)) (key : String) : Bool :=
  (fields.lookup key).isSome

namespace JSValue

/-- Truthiness, as tested by `!x` and `x || y`. -/
def truthy : JSValue → Bool
  | undefined => false
  | null => false
  | bool b => b
  | number n => n.truthy
  | string s => !s.isEmpty
  | array _ => true
  | object _ => true

/-- The expression `x || y`. -/
def or (x y : JSValue) : JSValue := if x.truthy then x else y

mutual

/-- Does the conversion of the value to a primitive throw a `TypeError`. A parsed
object inherits `valueOf`, which returns the object itself, and `toString`; an own
property `toString` hides the inherited method and, coming from JSON, is not
callable, so no method yields a primitive. An array is converted by joining the
string forms of its items. -/
def toPrimitiveThrows : JSValue → Bool
  | object fields => hasOwnProperty fields "toString"
  | array items => joinThrows items
  | _ => false

/-- Does `Array.prototype.join` throw on these items. -/
def joinThrows : List JSValue → Bool
  | [] => false
  | x :: xs => toPrimitiveThrows x || joinThrows xs

end

/-- The number `Number(x)` returns when the conversion does not throw. An array
converts through its string form, the items joined by commas: the empty array gives
`0`, two or more items give `NaN` (a comma is not part of a numeric literal) and a
single item converts as its own string form does. -/
def numericValue : JSValue → JSNumber
  | undefined => JSNumber.nan
  | null => JSNumber.fin 0
  | bool b => if b then JSNumber.fin 1 else JSNumber.fin 0
  | number n => n
  | string s => stringToNumber s
  | object _ => JSNumber.nan
  | array [] => JSNumber.fin 0
  | array [undefined] => JSNumber.fin 0
  | array [null] => JSNumber.fin 0
  | array [bool _] => JSNumber.nan
  | array [number n] => n
  | array [string s] => stringToNumber s
  | array [object _] => JSNumber.nan
  | array [array xs] => numericValue (array xs)
  | array (_ :: _ :: _) => JSNumber.nan

/-- The call `Number(x)`: the number, or the message of the `TypeError` it throws. -/
def toNumber (x : JSValue) : Except String JSNumber :=
  if x.toPrimitiveThrows then Except.error "Cannot convert object to primitive value"
  else Except.ok x.numericValue

/-- Property read `x.key` on a parsed body (own properties; none of the keys read by
the handlers is inherited from a prototype). -/
def getProp (x : JSValue) (key : String) : JSValue :=
  match x with
  | object fields => (fields.lookup key).getD undefined
  | _ => undefined

mutual

/-- Is every number in the value a double, as in every value the JSON parser
returns. -/
def isParsed : JSValue → Bool
  | number n => n.isDouble
  | array items => isParsedList items
  | object fields => isParsedFields fields
  | _ => true

/-- Are the items of an array parsed values. -/
def isParsedList : List JSValue → Bool
  | [] => true
  | x :: xs => isParsed x && isParsedList xs

/-- Are the property values of an object parsed values. -/
def isParsedFields : List (String × JSValue) → Bool
  | [] => true
  | (_, x) :: rest => isParsed x && isParsedFields rest

end

end JSValue

/-- How `res.json` writes a number: `NaN` and the infinities are written `null`. -/
def JSNumber.toJSON : JSNumber → JSValue
  | JSNumber.fin q => JSValue.number (JSNumber.fin q)
  | _ => JSValue.null


/-! ## The `Student` record and the Sequelize model behind the handlers -/

/-- A `Student` instance or row: the primary key and the three attributes declared in
`models/student.js`. In the instance `Student.create` returns, `name` and `fees` are
the values it was called with; in a row read from the table they are what the STRING
and FLOAT columns hold. `feePaid` is a FLOAT column read back as a number or as NULL
(`none`). -/
structure Student where
  id : Nat
  name : JSValue
  fees : JSValue
  feePaid : Option JSNumber

/-- The expression `student.feePaid || 0`. -/
def Student.feePaidOrZero (student : Student) : JSNumber :=
  match student.feePaid with
  | some n => if n.truthy then n else JSNumber.fin 0
  | none => JSNumber.fin 0

/-- The `feePaid` property in the JSON text `res.json` writes for a row. -/
def Student.feePaidJSON (student : Student) : JSValue :=
  match student.feePaid with
  | some n => n.toJSON
  | none => JSValue.null

/-- The operations of the Sequelize model `Student` used by `index.js`, over a database
state `σ`. Each either returns or raises an exception with a message; a raising
operation leaves the database as it was. -/
structure StudentModel (σ : Type) where
  findAll : σ → Except String (List Student)
  findByPk : Nat → σ → Except String (Option Student)
  create : JSValue → JSValue → JSNumber → σ → Except String (Student × σ)
  save : Student → σ → Except String σ

/-- The conversions of the storage engine that depend on the dialect chosen in
`models/index.js`: what a column reads back after a value of another type was written
to it, or the message of the error the engine raises for that write. -/
structure Engine where
  /-- STRING column, written with a number or a boolean. -/
  text : JSValue → Except String JSValue
  /-- FLOAT column, written with a value that is not a number and whose `Number()` is
  finite. -/
  real : JSValue → Except String JSValue

/-- An engine that refuses every write of a value that is not of the column's type.
It stands in the fixtures below, none of which writes such a value. -/
def Engine.strict : Engine where
  text _ := Except.error "datatype mismatch"
  real _ := Except.error "datatype mismatch"

/-- The database: the rows of the `Students` table in storage order, the next
auto-increment key, and the engine. -/
structure Store where
  rows : List Student
  nextId : Nat
  engine : Engine := Engine.strict

namespace Store

/-- Row lookup by primary key (`SELECT ... WHERE id = ?`, first match). -/
def lookup (st : Store) (id : Nat) : Option Student :=
  st.rows.find? (fun r => r.id == id)

/-- The instance `Student.create({ name, fees, feePaid })` returns: the values it was
called with, under the new key. -/
def newRow (st : Store) (name fees : JSValue) (feePaid : JSNumber) : Student :=
  { id := st.nextId, name := name, fees := fees, feePaid := some feePaid }

/-- What the STRING column `name` holds after `v` is written to it: a string is kept;
`null` is refused by `allowNull: false` and an array or an object by the check
Sequelize makes for a STRING attribute. -/
def stringColumn (st : Store) (v : JSValue) : Except String JSValue :=
  match v with
  | JSValue.string s => Except.ok (JSValue.string s)
  | JSValue.undefined => Except.error "notNull Violation: Student.name cannot be null"
  | JSValue.null => Except.error "notNull Violation: Student.name cannot be null"
  | JSValue.array _ => Except.error "string violation: name cannot be an array or an object"
  | JSValue.object _ => Except.error "string violation: name cannot be an array or an object"
  | other => st.engine.text other

/-- What the FLOAT column `fees` holds after `v` is written to it. Sequelize tests
`isNaN(v)` and `isFinite(v)`, which convert `v` with `Number` (and throw when it
does): a `NaN` is written as `NaN`, an infinite value as that infinity, and any other
value is handed to the engine as it is; a number is kept. -/
def floatColumn (st : Store) (v : JSValue) : Except String JSValue :=
  match v with
  | JSValue.undefined => Except.error "notNull Violation: Student.fees cannot be null"
  | JSValue.null => Except.error "notNull Violation: Student.fees cannot be null"
  | other =>
    match other.toNumber with
    | Except.error m => Except.error m
    | Except.ok JSNumber.nan => Except.ok (JSValue.number JSNumber.nan)
    | Except.ok JSNumber.posInf => Except.ok (JSValue.number JSNumber.posInf)
    | Except.ok JSNumber.negInf => Except.ok (JSValue.number JSNumber.negInf)
    | Except.ok (JSNumber.fin _) =>
      match other with
      | JSValue.number n => Except.ok (JSValue.number n)
      | _ => st.engine.real other

/-- The table after the `INSERT` of a row. -/
def insert (st : Store) (row : Student) : Store :=
  { st with rows := st.rows ++ [row], nextId := st.nextId + 1 }

/-- The call `Student.create({ name, fees, feePaid })`: the attribute checks, then the
`INSERT` of the row the columns hold; the instance returned keeps the values of the
call. -/
def create (name fees : JSValue) (feePaid : JSNumber) (st : Store) :
    Except String (Student × Store) :=
  match st.stringColumn name with
  | Except.error m => Except.error m
  | Except.ok storedName =>
    match st.floatColumn fees with
    | Except.error m => Except.error m
    | Except.ok storedFees =>
      Except.ok (st.newRow name fees feePaid,
        st.insert { id := st.nextId, name := storedName, fees := storedFees,
                    feePaid := some feePaid })

/-- The table after `student.save()` where `feePaid` is the changed attribute
(`UPDATE ... SET feePaid = ? WHERE id = ?`). -/
def update (st : Store) (student : Student) : Store :=
  { st with
    rows := st.rows.map
      (fun r => if r.id == student.id then { r with feePaid := student.feePaid } else r) }

/-- The `Student` model over a database that is up. -/
def model : StudentModel Store where
  findAll st := Except.ok st.rows
  findByPk id st := Except.ok (st.lookup id)
  create name fees feePaid st := st.create name fees feePaid
  save student st := Except.ok (st.update student)

/-- Primary keys already handed out lie below the auto-increment counter. -/
def WF (st : Store) : Prop := ∀ r ∈ st.rows, r.id < st.nextId

end Store

/-- Exceptions to raise, per operation (`none`: the operation goes through). -/
structure Faults where
  findAll : Option String
  findByPk : Option String
  create : Option String
  save : Option String

/-- A model whose operations raise as `f` prescribes and otherwise act as `M`. -/
def StudentModel.withFaults {σ : Type} (f : Faults) (M : StudentModel σ) : StudentModel σ where
  findAll st := match f.findAll with
    | some m => Except.error m
    | none => M.findAll st
  findByPk id st := match f.findByPk with
    | some m => Except.error m
    | none => M.findByPk id st
  create name fees feePaid st := match f.create with
    | some m => Except.error m
    | none => M.create name fees feePaid st
  save student st := match f.save with
    | some m => Except.error m
    | none => M.save student st

/-! ## HTTP responses and the four route handlers -/

/-- Argument of `res.json`. -/
inductive Body where
  | students (rows : List Student)
  | student (row : Student)
  | message (text : String)
  | error (msg : String)

/-- What `res.status(code).json(body)` sends. -/
structure Response where
  status : Nat
  body : Body

/-- Handler of `GET /students`. -/
def getStudents {σ : Type} (M : StudentModel σ) (st : σ) : Response × σ :=
  match M.findAll st with
  | Except.ok students => (⟨200, Body.students students⟩, st)
  | Except.error m => (⟨500, Body.error m⟩, st)

/-- Handler of `GET /student/:id`. -/
def getStudentById {σ : Type} (M : StudentModel σ) (id : Nat) (st : σ) : Response × σ :=
  match M.findByPk id st with
  | Except.ok none => (⟨404, Body.message "Student not found"⟩, st)
  | Except.ok (some student) => (⟨200, Body.student student⟩, st)
  | Except.error m => (⟨500, Body.error m⟩, st)

/-- Handler of `POST /student`. -/
def postStudent {σ : Type} (M : StudentModel σ) (body : JSValue) (st : σ) : Response × σ :=
  let name := body.getProp "name"
  let fees := body.getProp "fees"
  if !name.truthy || !fees.truthy then (⟨400, Body.message "Missing name or fees"⟩, st)
  else
    match M.create name fees (JSNumber.fin 0) st with
    | Except.ok (newStudent, st1) => (⟨201, Body.student newStudent⟩, st1)
    | Except.error m => (⟨500, Body.error m⟩, st)

/-- The assignment `student.feePaid = (student.feePaid || 0) + Number(amount || 0)`,
or the message of the `TypeError` thrown by `Number`. -/
def addPayment (student : Student) (amount : JSValue) : Except String Student :=
  match (amount.or (JSValue.number (JSNumber.fin 0))).toNumber with
  | Except.ok n => Except.ok { student with feePaid := some (student.feePaidOrZero.add n) }
  | Except.error m => Except.error m

/-- Handler of `PUT /student/:id/pay`. The guard `!amount || Number(amount) <= 0` is
evaluated before the `try`: when `Number(amount)` throws, the exception leaves the
handler and no response is sent (`none`). -/
def putStudentPay {σ : Type} (M : StudentModel σ) (id : Nat) (body : JSValue) (st : σ) :
    Option (Response × σ) :=
  let amount := body.getProp "amount"
  if !amount.truthy then some (⟨400, Body.message "Invalid amount"⟩, st)
  else
    match amount.toNumber with
    | Except.error _ => none
    | Except.ok n =>
      if n.le (JSNumber.fin 0) then some (⟨400, Body.message "Invalid amount"⟩, st)
      else
        match M.findByPk id st with
        | Except.error m => some (⟨500, Body.error m⟩, st)
        | Except.ok none => some (⟨404, Body.message "Student not found"⟩, st)
        | Except.ok (some student) =>
          match addPayment student amount with
          | Except.error m => some (⟨500, Body.error m⟩, st)
          | Except.ok paid =>
            match M.save paid st with
            | Except.ok st1 => some (⟨200, Body.student paid⟩, st1)
            | Except.error m => some (⟨500, Body.error m⟩, st)

/-- A request to one of the four routes. -/
inductive Request where
  | getStudents
  | getStudentById (id : Nat)
  | postStudent (body : JSValue)
  | putStudentPay (id : Nat) (body : JSValue)

/-- Dispatch of a request to its handler: the response and the database after it, or
`none` when the handler throws before it responds. -/
def handle {σ : Type} (M : StudentModel σ) (req : Request) (st : σ) : Option (Response × σ) :=
  match req with
  | Request.getStudents => some (getStudents M st)
  | Request.getStudentById id => some (getStudentById M id st)
  | Request.postStudent body => some (postStudent M body st)
  | Request.putStudentPay id body => putStudentPay M id body st

/-- The database after serving the requests one after the other; a request whose
handler throws before any persistence call leaves it as it was. -/
def serve {σ : Type} (M : StudentModel σ) : List Request → σ → σ
  | [], st => st
  | req :: reqs, st =>
    match handle M req st with
    | some r => serve M reqs r.2
    | none => serve M reqs st

/-! ## Fixtures of `tests/test_students.test.js` -/

/-- The table after `sequelize.sync({ force: true })`. -/
def emptyStore : Store := { rows := [], nextId := 1 }

/-- The body `{ name: "Alice", fees: 1000 }`. -/
def aliceBody : JSValue :=
  JSValue.object [("name", JSValue.string "Alice"), ("fees", JSValue.number (JSNumber.fin 1000))]

/-- The body `{ amount: v }`. -/
def amountBody (v : JSValue) : JSValue := JSValue.object [("amount", v)]

/-- The row of Alice with a given `feePaid`. -/
def alice (paid : JSNumber) : Student :=
  { id := 1, name := JSValue.string "Alice", fees := JSValue.number (JSNumber.fin 1000),
    feePaid := some paid }

/-- A database that is down: every operation raises `"connection lost"`. -/
def connectionLost : Faults :=
  { findAll := some "connection lost", findByPk := some "connection lost",
    create := some "connection lost", save := some "connection lost" }

/-- A database that answers reads and raises `"disk full"` on `save`. -/
def diskFull : Faults :=
  { findAll := none, findByPk := none, create := none, save := some "disk full" }

/-- A second student, stored under key 2. -/
def bob : Student :=
  { id := 2, name := JSValue.string "Bob", fees := JSValue.number (JSNumber.fin 800),
    feePaid := some (JSNumber.fin 50) }

/-- The body `{ name: "Alice", fees: "abc" }`. -/
def aliceAbcBody : JSValue :=
  JSValue.object [("name", JSValue.string "Alice"), ("fees", JSValue.string "abc")]

/-- The instance `POST /student { name: "Alice", fees: "abc" }` returns on the empty
table. -/
def aliceAbcCreated : Student :=
  { id := 1, name := JSValue.string "Alice", fees := JSValue.string "abc",
    feePaid := some (JSNumber.fin 0) }

/-- The row the table holds after that request. -/
def aliceAbcStored : Student :=
  { id := 1, name := JSValue.string "Alice", fees := JSValue.number JSNumber.nan,
    feePaid := some (JSNumber.fin 0) }

/-- The number 2^53, the first double whose successor is 2 away. -/
def twoPow53 : JSNumber := JSNumber.fin 9007199254740992


/-! ## Auxiliary facts -/

theorem JSNumber.truthy_of_pos {a : JSNumber} (h : JSNumber.lt (JSNumber.fin 0) a = true) :
    a.truthy = true := by
  cases a with
  | nan => simp [JSNumber.lt] at h
  | posInf => rfl
  | negInf => simp [JSNumber.lt] at h
  | fin q =>
    simp only [JSNumber.lt, decide_eq_true_eq] at h
    simp [JSNumber.truthy, ne_of_gt h]

theorem JSNumber.not_le_zero_of_pos {a : JSNumber} (h : JSNumber.lt (JSNumber.fin 0) a = true) :
    a.le (JSNumber.fin 0) = false := by
  cases a with
  | nan => simp [JSNumber.lt] at h
  | posInf => rfl
  | negInf => simp [JSNumber.lt] at h
  | fin q =>
    simp only [JSNumber.lt, decide_eq_true_eq] at h
    simp [JSNumber.le, h]

theorem JSNumber.ne_nan_of_pos {a : JSNumber} (h : JSNumber.lt (JSNumber.fin 0) a = true) :
    a ≠ JSNumber.nan := by
  intro hn
  rw [hn] at h
  simp [JSNumber.lt] at h

theorem JSNumber.add_fin (x y : ℚ) :
    (JSNumber.fin x).add (JSNumber.fin y) = roundToDouble (x + y) := rfl

theorem JSNumber.zero_add {a : JSNumber} (ha : a.isDouble = true) :
    (JSNumber.fin 0).add a = a := by
  cases a with
  | nan => rfl
  | posInf => rfl
  | negInf => rfl
  | fin q =>
    simp only [JSNumber.isDouble, decide_eq_true_eq] at ha
    have h0 : (0 : ℚ) + q = q := by ring
    rw [JSNumber.add_fin, h0, ha]

theorem isDouble_examples :
    (JSNumber.fin 0).isDouble = true ∧ (JSNumber.fin 1).isDouble = true ∧
    (JSNumber.fin 100).isDouble = true ∧ (JSNumber.fin 200).isDouble = true ∧
    (JSNumber.fin 300).isDouble = true ∧ (JSNumber.fin 500).isDouble = true ∧
    (JSNumber.fin 9007199254740992).isDouble = true ∧
    (JSNumber.fin 9007199254740993).isDouble = false := by
  decide!

/-- Sample sums: small integers add exactly, `2^53 + 1` stays `2^53`, `0.1 + 0.2` (the
two doubles) is the double `0.30000000000000004`, `2^1023 + 2^1023` is `Infinity`. -/
theorem add_examples :
    (JSNumber.fin 200).add (JSNumber.fin 300) = JSNumber.fin 500 ∧
    (JSNumber.fin 9007199254740992).add (JSNumber.fin 1) = JSNumber.fin 9007199254740992 ∧
    (JSNumber.fin (3602879701896397 / 36028797018963968)).add
        (JSNumber.fin (3602879701896397 / 18014398509481984)) =
      JSNumber.fin (1351079888211149 / 4503599627370496) ∧
    (JSNumber.fin (2 ^ 1023)).add (JSNumber.fin (2 ^ 1023)) = JSNumber.posInf := by
  decide!

/-- Sample conversions: `"1e-400"` rounds to `0`, `"1e400"` to `Infinity`, `"0.1"` to
the double nearest to one tenth, `"abc"` is `NaN`. -/
theorem stringToNumber_examples :
    stringToNumber "1e-400" = JSNumber.fin 0 ∧ stringToNumber "1e400" = JSNumber.posInf ∧
    stringToNumber "0.1" = JSNumber.fin (3602879701896397 / 36028797018963968) ∧
    stringToNumber " 12 " = JSNumber.fin 12 ∧ stringToNumber "0x1F" = JSNumber.fin 31 ∧
    stringToNumber "abc" = JSNumber.nan := by
  decide!


theorem JSValue.or_of_truthy {x y : JSValue} (h : x.truthy = true) : x.or y = x := by
  simp [JSValue.or, h]

theorem JSValue.toNumber_eq_ok {v : JSValue} {n : JSNumber} (h : v.toNumber = Except.ok n) :
    v.toPrimitiveThrows = false ∧ v.numericValue = n := by
  unfold JSValue.toNumber at h
  cases ht : v.toPrimitiveThrows with
  | true => simp [ht] at h
  | false =>
    simp only [ht, Bool.false_eq_true, if_false, Except.ok.injEq] at h
    exact ⟨rfl, h⟩

theorem JSValue.toNumber_number (n : JSNumber) :
    (JSValue.number n).toNumber = Except.ok n := rfl

theorem JSValue.toNumber_abc : (JSValue.string "abc").toNumber = Except.ok JSNumber.nan := by
  have h : stringToNumber "abc" = JSNumber.nan := by decide
  unfold JSValue.toNumber
  simp only [JSValue.toPrimitiveThrows, Bool.false_eq_true, if_false, JSValue.numericValue, h]

theorem Student.feePaidOrZero_of_number {s : Student} {p : JSNumber} (h : s.feePaid = some p)
    (hp : p ≠ JSNumber.nan) : s.feePaidOrZero = p := by
  unfold Student.feePaidOrZero
  rw [h]
  cases p with
  | nan => exact absurd rfl hp
  | posInf => rfl
  | negInf => rfl
  | fin q =>
    by_cases hq : q = 0
    · simp [JSNumber.truthy, hq]
    · simp [JSNumber.truthy, hq]

theorem Student.feePaidOrZero_of_falsy {s : Student}
    (h : s.feePaid = none ∨ s.feePaid = some JSNumber.nan ∨ s.feePaid = some (JSNumber.fin 0)) :
    s.feePaidOrZero = JSNumber.fin 0 := by
  unfold Student.feePaidOrZero
  rcases h with h | h | h <;> rw [h] <;> simp [JSNumber.truthy]

theorem Store.lookup_id {st : Store} {id : Nat} {s : Student} (h : st.lookup id = some s) :
    s.id = id := by
  have := List.find?_some h
  simpa using this

theorem Store.lookup_mem {st : Store} {id : Nat} {s : Student} (h : st.lookup id = some s) :
    s ∈ st.rows :=
  List.mem_of_find?_eq_some h

theorem Store.lookup_update_rows (rows : List Student) (id : Nat) (s t : Student)
    (h : rows.find? (fun r => r.id == id) = some s) (ht : t.id = id) :
    (rows.map (fun r => if r.id == t.id then { r with feePaid := t.feePaid } else r)).find?
      (fun r => r.id == id) = some { s with feePaid := t.feePaid } := by
  induction rows with
  | nil => simp at h
  | cons r rs ih =>
    rw [List.find?_cons] at h
    rw [List.map_cons, List.find?_cons]
    by_cases hr : r.id = id
    · have hb : (r.id == id) = true := by simpa using hr
      have hb2 : (r.id == t.id) = true := by simpa [ht] using hr
      simp only [hb] at h
      cases h
      simp only [hb2, if_true, hb]
    · have hb : (r.id == id) = false := by simpa using hr
      have hb2 : (r.id == t.id) = false := by simpa [ht] using hr
      simp only [hb] at h
      simp only [hb2, Bool.false_eq_true, if_false, hb]
      exact ih h

theorem Store.lookup_update {st : Store} {id : Nat} {s t : Student}
    (h : st.lookup id = some s) (ht : t.id = id) :
    (st.update t).lookup id = some { s with feePaid := t.feePaid } :=
  Store.lookup_update_rows st.rows id s t h ht

theorem Store.lookup_insert {st : Store} (hwf : st.WF) (row : Student)
    (hrow : row.id = st.nextId) : (st.insert row).lookup st.nextId = some row := by
  unfold Store.lookup Store.insert
  have hnone : st.rows.find? (fun r => r.id == st.nextId) = none := by
    rw [List.find?_eq_none]
    intro r hr
    have := hwf r hr
    simp
    omega
  simp [List.find?_append, hnone, hrow]

theorem Store.lookup_eq_none_iff (st : Store) (id : Nat) :
    st.lookup id = none ↔ ∀ r ∈ st.rows, r.id ≠ id := by
  unfold Store.lookup
  rw [List.find?_eq_none]
  simp

theorem getProp_amountBody (v : JSValue) : (amountBody v).getProp "amount" = v := by
  simp [amountBody, JSValue.getProp, List.lookup]

theorem stringToNumber_of_isEmpty {s : String} (h : s.isEmpty = true) :
    stringToNumber s = JSNumber.fin 0 := by
  have : s = "" := by simpa [String.isEmpty_iff] using h
  subst this
  rfl

theorem JSValue.truthy_of_numericValue_pos {v : JSValue}
    (h : JSNumber.lt (JSNumber.fin 0) v.numericValue = true) : v.truthy = true := by
  cases v with
  | undefined => simp [JSValue.numericValue, JSNumber.lt] at h
  | null => simp [JSValue.numericValue, JSNumber.lt] at h
  | bool b => cases b <;> simp [JSValue.numericValue, JSNumber.lt, JSValue.truthy] at h ⊢
  | number n => exact JSNumber.truthy_of_pos h
  | string s =>
    cases he : s.isEmpty with
    | false => simp [JSValue.truthy, he]
    | true =>
      rw [JSValue.numericValue, stringToNumber_of_isEmpty he] at h
      simp [JSNumber.lt] at h
  | array items => rfl
  | object fields => rfl

theorem JSValue.truthy_of_toNumber_pos {v : JSValue} {n : JSNumber}
    (hn : v.toNumber = Except.ok n) (h : JSNumber.lt (JSNumber.fin 0) n = true) :
    v.truthy = true := by
  have h2 := (JSValue.toNumber_eq_ok hn).2
  rw [← h2] at h
  exact JSValue.truthy_of_numericValue_pos h

theorem addPayment_ok (s : Student) (amount : JSValue) (n : JSNumber)
    (ht : amount.truthy = true) (hn : amount.toNumber = Except.ok n) :
    addPayment s amount = Except.ok { s with feePaid := some (s.feePaidOrZero.add n) } := by
  unfold addPayment
  rw [JSValue.or_of_truthy ht, hn]

theorem putStudentPay_accepted (st : Store) (id : Nat) (s : Student) (body : JSValue)
    (n : JSNumber) (hs : st.lookup id = some s) (ht : (body.getProp "amount").truthy = true)
    (hn : (body.getProp "amount").toNumber = Except.ok n)
    (hle : n.le (JSNumber.fin 0) = false) :
    putStudentPay Store.model id body st =
      some (⟨200, Body.student { s with feePaid := some (s.feePaidOrZero.add n) }⟩,
        st.update { s with feePaid := some (s.feePaidOrZero.add n) }) := by
  unfold putStudentPay
  simp only [ht, hn, hle, Store.model, hs, addPayment_ok s _ n ht hn]
  rfl

theorem putStudentPay_rejected {σ : Type} (M : StudentModel σ) (id : Nat) (body : JSValue) (st : σ)
    (h : (body.getProp "amount").truthy = false ∨
      ∃ n, (body.getProp "amount").toNumber = Except.ok n ∧ n.le (JSNumber.fin 0) = true) :
    putStudentPay M id body st = some (⟨400, Body.message "Invalid amount"⟩, st) := by
  unfold putStudentPay
  rcases h with h | ⟨n, hn, hle⟩
  · simp [h]
  · cases ht : (body.getProp "amount").truthy <;> simp [hn, hle]

theorem putStudentPay_ok (st : Store) (id : Nat) (s : Student) (body : JSValue) (a : JSNumber)
    (hs : st.lookup id = some s) (ha : body.getProp "amount" = JSValue.number a)
    (hpos : JSNumber.lt (JSNumber.fin 0) a = true) :
    putStudentPay Store.model id body st =
      some (⟨200, Body.student { s with feePaid := some (s.feePaidOrZero.add a) }⟩,
        st.update { s with feePaid := some (s.feePaidOrZero.add a) }) := by
  apply putStudentPay_accepted st id s body a hs
  · rw [ha]
    exact JSNumber.truthy_of_pos hpos
  · rw [ha]
    rfl
  · exact JSNumber.not_le_zero_of_pos hpos


theorem Store.floatColumn_number (st : Store) (n : JSNumber) :
    st.floatColumn (JSValue.number n) = Except.ok (JSValue.number n) := by
  cases n <;> rfl

theorem Store.floatColumn_nan (st : Store) (v : JSValue) (ht : v.truthy = true)
    (hn : v.toNumber = Except.ok JSNumber.nan) :
    st.floatColumn v = Except.ok (JSValue.number JSNumber.nan) := by
  cases v with
  | undefined => simp [JSValue.truthy] at ht
  | null => simp [JSValue.truthy] at ht
  | bool b => simp only [Store.floatColumn, hn]
  | number n => simp only [Store.floatColumn, hn]
  | string s => simp only [Store.floatColumn, hn]
  | array items => simp only [Store.floatColumn, hn]
  | object fields => simp only [Store.floatColumn, hn]

theorem Store.create_typed (st : Store) (s : String) (n p : JSNumber) :
    st.create (JSValue.string s) (JSValue.number n) p =
      Except.ok (st.newRow (JSValue.string s) (JSValue.number n) p,
        st.insert (st.newRow (JSValue.string s) (JSValue.number n) p)) := by
  unfold Store.create
  rw [Store.floatColumn_number]
  rfl

theorem Store.create_ok_inv {st st1 : Store} {name fees : JSValue} {p : JSNumber}
    {created : Student} (h : st.create name fees p = Except.ok (created, st1)) :
    created = st.newRow name fees p ∧
    ∃ storedName storedFees, st.stringColumn name = Except.ok storedName ∧
      st.floatColumn fees = Except.ok storedFees ∧
      st1 = st.insert { id := st.nextId, name := storedName, fees := storedFees,
                        feePaid := some p } := by
  unfold Store.create at h
  cases hn : st.stringColumn name with
  | error m => simp [hn] at h
  | ok storedName =>
    cases hf : st.floatColumn fees with
    | error m => simp [hn, hf] at h
    | ok storedFees =>
      simp only [hn, hf, Except.ok.injEq, Prod.mk.injEq] at h
      exact ⟨h.1.symm, storedName, storedFees, rfl, rfl, h.2.symm⟩

theorem postStudent_of_create_ok {σ : Type} (M : StudentModel σ) (body : JSValue) (st st1 : σ)
    (created : Student)
    (hn : (body.getProp "name").truthy = true) (hf : (body.getProp "fees").truthy = true)
    (hc : M.create (body.getProp "name") (body.getProp "fees") (JSNumber.fin 0) st =
      Except.ok (created, st1)) :
    postStudent M body st = (⟨201, Body.student created⟩, st1) := by
  unfold postStudent
  simp [hn, hf, hc]

theorem postStudent_of_create_error {σ : Type} (M : StudentModel σ) (body : JSValue) (st : σ)
    (m : String)
    (hn : (body.getProp "name").truthy = true) (hf : (body.getProp "fees").truthy = true)
    (hc : M.create (body.getProp "name") (body.getProp "fees") (JSNumber.fin 0) st =
      Except.error m) :
    postStudent M body st = (⟨500, Body.error m⟩, st) := by
  unfold postStudent
  simp [hn, hf, hc]

theorem postStudent_rejected {σ : Type} (M : StudentModel σ) (body : JSValue) (st : σ)
    (h : (body.getProp "name").truthy = false ∨ (body.getProp "fees").truthy = false) :
    postStudent M body st = (⟨400, Body.message "Missing name or fees"⟩, st) := by
  unfold postStudent
  rcases h with h | h <;>
    simp only [h, Bool.not_false, Bool.true_or, Bool.or_true, if_true]

theorem postStudent_created_inv {σ : Type} (M : StudentModel σ) (body : JSValue) (st st1 : σ)
    (created : Student) (h : postStudent M body st = (⟨201, Body.student created⟩, st1)) :
    (body.getProp "name").truthy = true ∧ (body.getProp "fees").truthy = true ∧
    M.create (body.getProp "name") (body.getProp "fees") (JSNumber.fin 0) st =
      Except.ok (created, st1) := by
  cases hn : (body.getProp "name").truthy with
  | false =>
    rw [postStudent_rejected M body st (Or.inl hn)] at h
    simp at h
  | true =>
    cases hf : (body.getProp "fees").truthy with
    | false =>
      rw [postStudent_rejected M body st (Or.inr hf)] at h
      simp at h
    | true =>
      cases hc : M.create (body.getProp "name") (body.getProp "fees") (JSNumber.fin 0) st with
      | error m =>
        rw [postStudent_of_create_error M body st m hn hf hc] at h
        simp at h
      | ok res =>
        obtain ⟨c, s1⟩ := res
        rw [postStudent_of_create_ok M body st s1 c hn hf hc] at h
        simp only [Prod.mk.injEq, Response.mk.injEq, Body.student.injEq, true_and] at h
        rw [h.1, h.2]
        exact ⟨rfl, rfl, rfl⟩

theorem aliceBody_props :
    aliceBody.getProp "name" = JSValue.string "Alice" ∧
    aliceBody.getProp "fees" = JSValue.number (JSNumber.fin 1000) ∧
    (aliceBody.getProp "name").truthy = true ∧ (aliceBody.getProp "fees").truthy = true := by
  refine ⟨rfl, rfl, rfl, ?_⟩
  show (JSValue.number (JSNumber.fin 1000)).truthy = true
  simp [JSValue.truthy, JSNumber.truthy]

theorem aliceAbcBody_props :
    aliceAbcBody.getProp "name" = JSValue.string "Alice" ∧
    aliceAbcBody.getProp "fees" = JSValue.string "abc" ∧
    (aliceAbcBody.getProp "name").truthy = true ∧ (aliceAbcBody.getProp "fees").truthy = true :=
  ⟨rfl, rfl, rfl, rfl⟩

theorem post_alice :
    postStudent Store.model aliceBody emptyStore =
      (⟨201, Body.student (alice (JSNumber.fin 0))⟩,
        { rows := [alice (JSNumber.fin 0)], nextId := 2 }) := by
  rw [postStudent_of_create_ok Store.model aliceBody emptyStore _ _ aliceBody_props.2.2.1
    aliceBody_props.2.2.2]
  rw [aliceBody_props.1, aliceBody_props.2.1]
  exact Store.create_typed emptyStore "Alice" (JSNumber.fin 1000) (JSNumber.fin 0)

theorem update_alice (p q : JSNumber) (n : Nat) :
    Store.update { rows := [alice p], nextId := n } (alice q) = { rows := [alice q], nextId := n } := by
  simp [Store.update, alice]

theorem pay_alice (p a : JSNumber) (n : Nat) (hpos : JSNumber.lt (JSNumber.fin 0) a = true) :
    putStudentPay Store.model 1 (amountBody (JSValue.number a)) { rows := [alice p], nextId := n } =
      some (⟨200, Body.student (alice ((alice p).feePaidOrZero.add a))⟩,
        { rows := [alice ((alice p).feePaidOrZero.add a)], nextId := n }) := by
  rw [putStudentPay_ok { rows := [alice p], nextId := n } 1 (alice p) _ a rfl
    (getProp_amountBody _) hpos]
  exact congrArg (fun x => some (_, x)) (update_alice p _ n)

theorem pay_alice_abc (p : JSNumber) (n : Nat) :
    putStudentPay Store.model 1 (amountBody (JSValue.string "abc")) { rows := [alice p], nextId := n } =
      some (⟨200, Body.student (alice JSNumber.nan)⟩, { rows := [alice JSNumber.nan], nextId := n }) := by
  rw [putStudentPay_accepted { rows := [alice p], nextId := n } 1 (alice p) _ JSNumber.nan rfl
    (by rw [getProp_amountBody]; rfl) (by rw [getProp_amountBody]; exact JSValue.toNumber_abc) rfl]
  have hadd : (alice p).feePaidOrZero.add JSNumber.nan = JSNumber.nan := by
    cases (alice p).feePaidOrZero <;> rfl
  rw [hadd]
  exact congrArg (fun x => some (_, x)) (update_alice p _ n)

theorem alice_zero_add (a : JSNumber) (ha : a.isDouble = true) :
    (alice (JSNumber.fin 0)).feePaidOrZero.add a = a := by
  rw [Student.feePaidOrZero_of_falsy (Or.inr (Or.inr rfl)), JSNumber.zero_add ha]

theorem alice_nan_add (a : JSNumber) (ha : a.isDouble = true) :
    (alice JSNumber.nan).feePaidOrZero.add a = a := by
  rw [Student.feePaidOrZero_of_falsy (Or.inr (Or.inl rfl)), JSNumber.zero_add ha]


theorem putStudentPay_throws {σ : Type} (M : StudentModel σ) (id : Nat) (body : JSValue) (st : σ)
    (m : String) (ht : (body.getProp "amount").truthy = true)
    (hn : (body.getProp "amount").toNumber = Except.error m) :
    putStudentPay M id body st = none := by
  unfold putStudentPay
  simp [ht, hn]

theorem putStudentPay_unknown {σ : Type} (M : StudentModel σ) (id : Nat) (body : JSValue) (st : σ)
    (n : JSNumber) (ht : (body.getProp "amount").truthy = true)
    (hn : (body.getProp "amount").toNumber = Except.ok n)
    (hle : n.le (JSNumber.fin 0) = false) (hf : M.findByPk id st = Except.ok none) :
    putStudentPay M id body st = some (⟨404, Body.message "Student not found"⟩, st) := by
  unfold putStudentPay
  simp [ht, hn, hle, hf]

theorem putStudentPay_find_error {σ : Type} (M : StudentModel σ) (id : Nat) (body : JSValue)
    (st : σ) (n : JSNumber) (m : String) (ht : (body.getProp "amount").truthy = true)
    (hn : (body.getProp "amount").toNumber = Except.ok n)
    (hle : n.le (JSNumber.fin 0) = false) (hf : M.findByPk id st = Except.error m) :
    putStudentPay M id body st = some (⟨500, Body.error m⟩, st) := by
  unfold putStudentPay
  simp [ht, hn, hle, hf]

theorem putStudentPay_save {σ : Type} (M : StudentModel σ) (id : Nat) (body : JSValue)
    (st : σ) (n : JSNumber) (s : Student) (ht : (body.getProp "amount").truthy = true)
    (hn : (body.getProp "amount").toNumber = Except.ok n)
    (hle : n.le (JSNumber.fin 0) = false) (hf : M.findByPk id st = Except.ok (some s)) :
    putStudentPay M id body st =
      match M.save { s with feePaid := some (s.feePaidOrZero.add n) } st with
      | Except.ok st1 =>
        some (⟨200, Body.student { s with feePaid := some (s.feePaidOrZero.add n) }⟩, st1)
      | Except.error m => some (⟨500, Body.error m⟩, st) := by
  unfold putStudentPay
  simp only [ht, hn, hle, hf, addPayment_ok s _ n ht hn]
  rfl

theorem putStudentPay_status_200 (st st1 : Store) (id : Nat) (body : JSValue) (r : Response)
    (h : putStudentPay Store.model id body st = some (r, st1)) (h200 : r.status = 200) :
    ∃ (s : Student) (n : JSNumber), st.lookup id = some s ∧
      r = ⟨200, Body.student { s with feePaid := some (s.feePaidOrZero.add n) }⟩ ∧
      st1 = st.update { s with feePaid := some (s.feePaidOrZero.add n) } := by
  cases ht : (body.getProp "amount").truthy with
  | false =>
    rw [putStudentPay_rejected Store.model id body st (Or.inl ht)] at h
    simp only [Option.some.injEq, Prod.mk.injEq] at h
    rw [← h.1] at h200
    simp at h200
  | true =>
    cases hn : (body.getProp "amount").toNumber with
    | error m =>
      rw [putStudentPay_throws Store.model id body st m ht hn] at h
      simp at h
    | ok n =>
      cases hle : n.le (JSNumber.fin 0) with
      | true =>
        rw [putStudentPay_rejected Store.model id body st (Or.inr ⟨n, hn, hle⟩)] at h
        simp only [Option.some.injEq, Prod.mk.injEq] at h
        rw [← h.1] at h200
        simp at h200
      | false =>
        cases hl : st.lookup id with
        | none =>
          rw [putStudentPay_unknown Store.model id body st n ht hn hle
            (by simp only [Store.model, hl])] at h
          simp only [Option.some.injEq, Prod.mk.injEq] at h
          rw [← h.1] at h200
          simp at h200
        | some s =>
          rw [putStudentPay_accepted st id s body n hl ht hn hle] at h
          simp only [Option.some.injEq, Prod.mk.injEq] at h
          exact ⟨s, n, rfl, h.1.symm, h.2.symm⟩

theorem postStudent_stores_column_value_aux :
    (aliceAbcBody.getProp "name").truthy = true ∧ (aliceAbcBody.getProp "fees").truthy = true ∧
    ∃ st1 : Store,
      postStudent Store.model aliceAbcBody emptyStore =
        (⟨201, Body.student aliceAbcCreated⟩, st1) ∧
      aliceAbcCreated.fees = JSValue.string "abc" ∧
      st1.rows = [aliceAbcStored] ∧
      aliceAbcStored.fees = JSValue.number JSNumber.nan ∧
      aliceAbcStored.fees ≠ aliceAbcCreated.fees := by
  have hpost : postStudent Store.model aliceAbcBody emptyStore =
      (⟨201, Body.student aliceAbcCreated⟩, emptyStore.insert aliceAbcStored) := by
    apply postStudent_of_create_ok Store.model aliceAbcBody emptyStore _ _ rfl rfl
    rw [aliceAbcBody_props.1, aliceAbcBody_props.2.1]
    show emptyStore.create (JSValue.string "Alice") (JSValue.string "abc") (JSNumber.fin 0) = _
    unfold Store.create
    rw [Store.floatColumn_nan emptyStore (JSValue.string "abc") rfl JSValue.toNumber_abc]
    rfl
  refine ⟨rfl, rfl, emptyStore.insert aliceAbcStored, hpost, rfl, rfl, rfl, ?_⟩
  intro h
  simp [aliceAbcStored, aliceAbcCreated] at h

/-- Sample conversions of objects and arrays: a plain object is `NaN`, an object with
an own `toString` throws, alone or inside an array, `[5]` is 5 and `[1, 2]` is `NaN`. -/
theorem toNumber_examples :
    (JSValue.object [("a", JSValue.null)]).toNumber = Except.ok JSNumber.nan ∧
    (JSValue.object [("toString", JSValue.null)]).toNumber =
      Except.error "Cannot convert object to primitive value" ∧
    (JSValue.array [JSValue.number (JSNumber.fin 1),
        JSValue.object [("toString", JSValue.null)]]).toNumber =
      Except.error "Cannot convert object to primitive value" ∧
    (JSValue.array [JSValue.number (JSNumber.fin 5)]).toNumber = Except.ok (JSNumber.fin 5) ∧
    (JSValue.array [JSValue.number (JSNumber.fin 1), JSValue.number (JSNumber.fin 2)]).toNumber =
      Except.ok JSNumber.nan :=
  ⟨rfl, rfl, rfl, rfl, rfl⟩

/-- Sample payments on the empty table: `{ amount: "1e-400" }` is answered 400, since
`Number("1e-400")` is 0, and `{ amount: { toString: null } }` is not answered. -/
theorem putStudentPay_examples :
    putStudentPay Store.model 1 (amountBody (JSValue.string "1e-400")) emptyStore =
      some (⟨400, Body.message "Invalid amount"⟩, emptyStore) ∧
    putStudentPay Store.model 1
      (amountBody (JSValue.object [("toString", JSValue.null)])) emptyStore = none := by
  constructor
  · apply putStudentPay_rejected
    right
    refine ⟨JSNumber.fin 0, ?_, by simp [JSNumber.le]⟩
    rw [getProp_amountBody]
    have h : stringToNumber "1e-400" = JSNumber.fin 0 := stringToNumber_examples.1
    unfold JSValue.toNumber
    simp only [JSValue.toPrimitiveThrows, Bool.false_eq_true, if_false, JSValue.numericValue, h]
  · apply putStudentPay_throws Store.model 1 _ emptyStore
      "Cannot convert object to primitive value"
    · rw [getProp_amountBody]
      rfl
    · rw [getProp_amountBody]
      rfl

/-- Sample creation on the empty table: a `name` that is an array is refused by
`Student.create` and the request is answered 500. -/
theorem postStudent_array_name :
    ∃ m, postStudent Store.model
      (JSValue.object [("name", JSValue.array [JSValue.string "Al", JSValue.string "ice"]),
        ("fees", JSValue.number (JSNumber.fin 1000))]) emptyStore =
      (⟨500, Body.error m⟩, emptyStore) := by
  refine ⟨"string violation: name cannot be an array or an object", ?_⟩
  apply postStudent_of_create_error Store.model _ emptyStore
  · rfl
  · show (JSValue.number (JSNumber.fin 1000)).truthy = true
    simp [JSValue.truthy, JSNumber.truthy]
  · rfl

/-! ## The claims -/

/-- C1, as stated, at a stored `feePaid` of 2^53 and the request
`PUT /student/1/pay { amount: 1 }`: the handler answers 200 with `feePaid` still 2^53
and stores that, because the double sum `2^53 + 1` is 2^53; the exact sum
9007199254740993 is another number. -/
theorem putStudentPay_sum_is_rounded :
    JSNumber.lt (JSNumber.fin 0) (JSNumber.fin 1) = true ∧
    putStudentPay Store.model 1 (amountBody (JSValue.number (JSNumber.fin 1)))
        { rows := [alice twoPow53], nextId := 2 } =
      some (⟨200, Body.student (alice twoPow53)⟩, { rows := [alice twoPow53], nextId := 2 }) ∧
    twoPow53 = JSNumber.fin 9007199254740992 ∧
    JSNumber.fin (9007199254740992 + 1) ≠ twoPow53 := by
  have hpos : JSNumber.lt (JSNumber.fin 0) (JSNumber.fin 1) = true := by simp [JSNumber.lt]
  refine ⟨hpos, ?_, rfl, ?_⟩
  · have h := pay_alice twoPow53 (JSNumber.fin 1) 2 hpos
    have e : (alice twoPow53).feePaidOrZero.add (JSNumber.fin 1) = twoPow53 := by
      rw [Student.feePaidOrZero_of_number (p := twoPow53) rfl (by simp [twoPow53])]
      exact add_examples.2.1
    rw [e] at h
    exact h
  · simp only [twoPow53, ne_eq, JSNumber.fin.injEq]
    norm_num

/-- C1, amended: on every table, for every existing student `s` and every pay request
whose `amount` is a number `a > 0`, the handler answers 200 with a row `paid` that is
`s` with `feePaid` equal to the JavaScript sum `p + a` when the stored `feePaid` is a
number `p`, and to `0 + a` when the stored `feePaid` is missing or falsy; the table
then holds `paid` under that key, and the JSON text sent has that `feePaid`, written
`null` when it is not finite. The JavaScript sum of two finite numbers is their exact
sum rounded to the nearest double, so it is the exact sum whenever that is a double.
Consequently, on a freshly created student, paying `a` and then `b` answers 200
twice, with `feePaid = a` and then the JavaScript sum `a + b`, which is also what the
table holds at the end. -/
theorem putStudentPay_increases_feePaid :
    (∀ (st : Store) (id : Nat) (s : Student) (body : JSValue) (a : JSNumber),
      st.lookup id = some s → body.getProp "amount" = JSValue.number a →
      a.isDouble = true → JSNumber.lt (JSNumber.fin 0) a = true →
      ∃ paid : Student,
        putStudentPay Store.model id body st =
          some (⟨200, Body.student paid⟩, st.update paid) ∧
        paid.id = s.id ∧ paid.name = s.name ∧ paid.fees = s.fees ∧
        (∀ p, s.feePaid = some p → p ≠ JSNumber.nan → p.isDouble = true →
          paid.feePaid = some (p.add a) ∧ paid.feePaidJSON = (p.add a).toJSON) ∧
        (s.feePaid = none ∨ s.feePaid = some JSNumber.nan ∨ s.feePaid = some (JSNumber.fin 0) →
          paid.feePaid = some ((JSNumber.fin 0).add a) ∧ (JSNumber.fin 0).add a = a) ∧
        (st.update paid).lookup id = some paid) ∧
    (∀ x y : ℚ, (JSNumber.fin x).add (JSNumber.fin y) = roundToDouble (x + y) ∧
      ((JSNumber.fin (x + y)).isDouble = true →
        (JSNumber.fin x).add (JSNumber.fin y) = JSNumber.fin (x + y))) ∧
    (∀ (st st1 : Store) (created : Student) (body bodyA bodyB : JSValue) (a b : JSNumber),
      st.WF → postStudent Store.model body st = (⟨201, Body.student created⟩, st1) →
      bodyA.getProp "amount" = JSValue.number a → a.isDouble = true →
      JSNumber.lt (JSNumber.fin 0) a = true →
      bodyB.getProp "amount" = JSValue.number b → b.isDouble = true →
      JSNumber.lt (JSNumber.fin 0) b = true →
      created.feePaid = some (JSNumber.fin 0) ∧
      ∃ (paidA paidB : Student) (st2 st3 : Store),
        putStudentPay Store.model created.id bodyA st1 =
          some (⟨200, Body.student paidA⟩, st2) ∧
        paidA.id = created.id ∧ paidA.feePaid = some a ∧
        putStudentPay Store.model created.id bodyB st2 =
          some (⟨200, Body.student paidB⟩, st3) ∧
        paidB.id = created.id ∧ paidB.feePaid = some (a.add b) ∧
        st3.lookup created.id = some paidB) := by
  refine ⟨?_, ?_, ?_⟩
  · intro st id s body a hs ha hda hpos
    refine ⟨{ s with feePaid := some (s.feePaidOrZero.add a) },
      putStudentPay_ok st id s body a hs ha hpos, rfl, rfl, rfl, ?_, ?_, ?_⟩
    · intro p hp hnan _
      rw [Student.feePaidOrZero_of_number hp hnan]
      exact ⟨rfl, rfl⟩
    · intro h
      rw [Student.feePaidOrZero_of_falsy h]
      exact ⟨rfl, JSNumber.zero_add hda⟩
    · exact Store.lookup_update (t := { s with feePaid := some (s.feePaidOrZero.add a) }) hs
        (Store.lookup_id (s := s) hs)
  · intro x y
    refine ⟨rfl, fun h => ?_⟩
    simp only [JSNumber.isDouble, decide_eq_true_eq] at h
    rw [JSNumber.add_fin, h]
  · intro st st1 created body bodyA bodyB a b hwf hpost ha hda hapos hb _ hbpos
    obtain ⟨_, _, hc⟩ := postStudent_created_inv Store.model body st st1 created hpost
    obtain ⟨hcreated, sn, sf, _, _, hst1⟩ := Store.create_ok_inv hc
    have hcid : created.id = st.nextId := by rw [hcreated]; rfl
    have hcpaid : created.feePaid = some (JSNumber.fin 0) := by rw [hcreated]; rfl
    have h1 : st1.lookup created.id =
        some { id := st.nextId, name := sn, fees := sf, feePaid := some (JSNumber.fin 0) } := by
      rw [hst1, hcid]
      exact Store.lookup_insert hwf _ rfl
    have e1 : (Student.feePaidOrZero
        { id := st.nextId, name := sn, fees := sf, feePaid := some (JSNumber.fin 0) }).add a
        = a := by
      rw [Student.feePaidOrZero_of_falsy (Or.inr (Or.inr rfl)), JSNumber.zero_add hda]
    have p1 := putStudentPay_ok _ _ _ bodyA a h1 ha hapos
    rw [e1] at p1
    have h2 := Store.lookup_update
      (t := { id := st.nextId, name := sn, fees := sf, feePaid := some a }) h1 hcid.symm
    have p2 := putStudentPay_ok _ _ _ bodyB b h2 hb hbpos
    rw [Student.feePaidOrZero_of_number (p := a) rfl (JSNumber.ne_nan_of_pos hapos)] at p2
    have h3 := Store.lookup_update
      (t := { id := st.nextId, name := sn, fees := sf, feePaid := some (a.add b) }) h2 hcid.symm
    exact ⟨hcpaid, _, _, _, _, p1, hcid.symm, rfl, p2, hcid.symm, rfl, h3⟩

/-- The scenario of the test file and of the specification: Alice is created on the
empty table, pays 200 and then 300, and her `feePaid` is 200 and then 500. -/
theorem putStudentPay_increases_feePaid_witness :
    (∃ paid : Student,
      putStudentPay Store.model 1 (amountBody (JSValue.number (JSNumber.fin 300)))
          { rows := [alice (JSNumber.fin 200)], nextId := 2 } =
        some (⟨200, Body.student paid⟩,
          Store.update { rows := [alice (JSNumber.fin 200)], nextId := 2 } paid) ∧
      paid.feePaid = some (JSNumber.fin 500) ∧
      paid.feePaidJSON = JSValue.number (JSNumber.fin 500)) ∧
    (∃ (paidA paidB : Student) (st1 st2 st3 : Store),
      postStudent Store.model aliceBody emptyStore =
        (⟨201, Body.student (alice (JSNumber.fin 0))⟩, st1) ∧
      putStudentPay Store.model 1 (amountBody (JSValue.number (JSNumber.fin 200))) st1 =
        some (⟨200, Body.student paidA⟩, st2) ∧
      paidA.feePaid = some (JSNumber.fin 200) ∧
      putStudentPay Store.model 1 (amountBody (JSValue.number (JSNumber.fin 300))) st2 =
        some (⟨200, Body.student paidB⟩, st3) ∧
      paidB.feePaid = some (JSNumber.fin 500) ∧
      st3.lookup 1 = some paidB) := by
  have e500 : (JSNumber.fin 200).add (JSNumber.fin 300) = JSNumber.fin 500 := add_examples.1
  have d200 : (JSNumber.fin 200).isDouble = true := isDouble_examples.2.2.2.1
  have d300 : (JSNumber.fin 300).isDouble = true := isDouble_examples.2.2.2.2.1
  have p200 : JSNumber.lt (JSNumber.fin 0) (JSNumber.fin 200) = true := by simp [JSNumber.lt]
  have p300 : JSNumber.lt (JSNumber.fin 0) (JSNumber.fin 300) = true := by simp [JSNumber.lt]
  constructor
  · obtain ⟨paid, h, _, _, _, hp, _, _⟩ :=
      putStudentPay_increases_feePaid.1 { rows := [alice (JSNumber.fin 200)], nextId := 2 } 1
        (alice (JSNumber.fin 200)) (amountBody (JSValue.number (JSNumber.fin 300)))
        (JSNumber.fin 300) rfl (getProp_amountBody _) d300 p300
    have hp2 := hp (JSNumber.fin 200) rfl (by simp) d200
    rw [e500] at hp2
    exact ⟨paid, h, hp2.1, hp2.2⟩
  · obtain ⟨_, paidA, paidB, st2, st3, h1, _, hA, h2, _, hB, h3⟩ :=
      putStudentPay_increases_feePaid.2.2 emptyStore _ (alice (JSNumber.fin 0)) aliceBody
        (amountBody (JSValue.number (JSNumber.fin 200)))
        (amountBody (JSValue.number (JSNumber.fin 300)))
        (JSNumber.fin 200) (JSNumber.fin 300)
        (by intro r hr; simp [emptyStore] at hr) post_alice
        (getProp_amountBody _) d200 p200 (getProp_amountBody _) d300 p300
    rw [e500] at hB
    exact ⟨paidA, paidB, _, st2, st3, post_alice, h1, hA, h2, hB, h3⟩


/-- C2, as stated, at `POST /student { name: "Alice", fees: "abc" }` on the empty
table: `name` and `fees` are truthy and the store does not fail, the handler answers
201 with `fees: "abc"` and `feePaid: 0`, and the one row the table gains has `NaN` in
its FLOAT column `fees`, not the given value. -/
theorem postStudent_stores_column_value :
    (aliceAbcBody.getProp "name").truthy = true ∧ (aliceAbcBody.getProp "fees").truthy = true ∧
    ∃ st1 : Store,
      postStudent Store.model aliceAbcBody emptyStore =
        (⟨201, Body.student aliceAbcCreated⟩, st1) ∧
      aliceAbcCreated.fees = JSValue.string "abc" ∧
      st1.rows = [aliceAbcStored] ∧
      aliceAbcStored.fees = JSValue.number JSNumber.nan ∧
      aliceAbcStored.fees ≠ aliceAbcCreated.fees :=
  postStudent_stores_column_value_aux

/-- C2, amended: for every `POST /student` whose body has a truthy `name` and a truthy
`fees` and for which `Student.create` does not raise, the handler answers 201 with an
instance `created` whose `name` and `fees` are the given values and whose `feePaid`
is 0, and the table gains exactly one row: its rows are the old rows followed by a
row under the key of `created`, with `feePaid` 0, whose `name` and `fees` are what
the STRING and FLOAT columns hold for the given values. That is the given value for
a `name` that is a string and for a `fees` that is a number, and `NaN` for a `fees`
whose `Number()` is `NaN`. For a string `name` and a number `fees` the creation does
not raise and the new row is `created` itself. -/
theorem postStudent_creates_row (st : Store) (body : JSValue)
    (hn : (body.getProp "name").truthy = true) (hf : (body.getProp "fees").truthy = true)
    (_hpn : (body.getProp "name").isParsed = true)
    (_hpf : (body.getProp "fees").isParsed = true) :
    (∀ (created : Student) (st1 : Store),
      Store.model.create (body.getProp "name") (body.getProp "fees") (JSNumber.fin 0) st =
        Except.ok (created, st1) →
      postStudent Store.model body st = (⟨201, Body.student created⟩, st1) ∧
      created.name = body.getProp "name" ∧ created.fees = body.getProp "fees" ∧
      created.feePaid = some (JSNumber.fin 0) ∧
      ∃ row : Student,
        st1.rows = st.rows ++ [row] ∧ st1.rows.length = st.rows.length + 1 ∧
        row.id = created.id ∧ row.feePaid = some (JSNumber.fin 0) ∧
        st.stringColumn (body.getProp "name") = Except.ok row.name ∧
        st.floatColumn (body.getProp "fees") = Except.ok row.fees ∧
        (∀ s, body.getProp "name" = JSValue.string s → row.name = body.getProp "name") ∧
        (∀ n, body.getProp "fees" = JSValue.number n → row.fees = body.getProp "fees") ∧
        ((body.getProp "fees").toNumber = Except.ok JSNumber.nan →
          row.fees = JSValue.number JSNumber.nan)) ∧
    (∀ (s : String) (n : JSNumber),
      body.getProp "name" = JSValue.string s → body.getProp "fees" = JSValue.number n →
      ∃ created : Student,
        postStudent Store.model body st = (⟨201, Body.student created⟩, st.insert created) ∧
        created.name = body.getProp "name" ∧ created.fees = body.getProp "fees" ∧
        created.feePaid = some (JSNumber.fin 0) ∧
        (st.insert created).rows = st.rows ++ [created]) := by
  constructor
  · intro created st1 hc
    obtain ⟨hcreated, sn, sf, hsn, hsf, hst1⟩ := Store.create_ok_inv hc
    refine ⟨postStudent_of_create_ok Store.model body st st1 created hn hf hc,
      by rw [hcreated]; rfl, by rw [hcreated]; rfl, by rw [hcreated]; rfl,
      { id := st.nextId, name := sn, fees := sf, feePaid := some (JSNumber.fin 0) },
      by rw [hst1]; rfl, by rw [hst1]; simp [Store.insert], by rw [hcreated]; rfl, rfl,
      hsn, hsf, ?_, ?_, ?_⟩
    · intro s hs
      rw [hs] at hsn ⊢
      simp only [Store.stringColumn, Except.ok.injEq] at hsn
      exact hsn.symm
    · intro n hnum
      rw [hnum, Store.floatColumn_number] at hsf
      rw [hnum]
      simp only [Except.ok.injEq] at hsf
      exact hsf.symm
    · intro hnan
      rw [Store.floatColumn_nan st _ hf hnan] at hsf
      simp only [Except.ok.injEq] at hsf
      exact hsf.symm
  · intro s n hs hnum
    have hc : Store.model.create (body.getProp "name") (body.getProp "fees") (JSNumber.fin 0) st
        = Except.ok (st.newRow (JSValue.string s) (JSValue.number n) (JSNumber.fin 0),
            st.insert (st.newRow (JSValue.string s) (JSValue.number n) (JSNumber.fin 0))) := by
      rw [hs, hnum]
      exact Store.create_typed st s n (JSNumber.fin 0)
    exact ⟨_, postStudent_of_create_ok Store.model body st _ _ hn hf hc,
      by rw [hs]; rfl, by rw [hnum]; rfl, rfl, rfl⟩

/-- Creating Alice with fees 1000 on the empty table answers 201 with `feePaid` 0 and
stores her row as it is returned. -/
theorem postStudent_creates_row_witness :
    (aliceBody.getProp "name").truthy = true ∧ (aliceBody.getProp "fees").truthy = true ∧
    (aliceBody.getProp "name").isParsed = true ∧ (aliceBody.getProp "fees").isParsed = true ∧
    ∃ created : Student,
      postStudent Store.model aliceBody emptyStore =
        (⟨201, Body.student created⟩, emptyStore.insert created) ∧
      created.name = aliceBody.getProp "name" ∧ created.fees = aliceBody.getProp "fees" ∧
      created.feePaid = some (JSNumber.fin 0) ∧
      (emptyStore.insert created).rows = emptyStore.rows ++ [created] :=
  have hp : (aliceBody.getProp "fees").isParsed = true := by
    show (JSNumber.fin 1000).isDouble = true
    decide!
  ⟨aliceBody_props.2.2.1, aliceBody_props.2.2.2, rfl, hp,
    (postStudent_creates_row emptyStore aliceBody aliceBody_props.2.2.1 aliceBody_props.2.2.2
      rfl hp).2 "Alice" (JSNumber.fin 1000) rfl rfl⟩


/-- C3 at the body `{ amount: "abc" }`: `Number("abc")` is `NaN`, which is not
strictly greater than zero, yet the handler does not answer 400. With Alice stored
under key 1 it answers 200 and stores `NaN` as her `feePaid`; on the empty table it
goes on to the lookup and answers 404. -/
theorem putStudentPay_accepts_non_numeric_amount :
    (JSValue.string "abc").toNumber = Except.ok JSNumber.nan ∧
    JSNumber.lt (JSNumber.fin 0) JSNumber.nan = false ∧
    putStudentPay Store.model 1 (amountBody (JSValue.string "abc"))
        { rows := [alice (JSNumber.fin 500)], nextId := 2 } =
      some (⟨200, Body.student (alice JSNumber.nan)⟩,
        { rows := [alice JSNumber.nan], nextId := 2 }) ∧
    putStudentPay Store.model 1 (amountBody (JSValue.string "abc")) emptyStore =
      some (⟨404, Body.message "Student not found"⟩, emptyStore) := by
  refine ⟨JSValue.toNumber_abc, rfl, pay_alice_abc (JSNumber.fin 500) 2, ?_⟩
  unfold putStudentPay
  simp only [getProp_amountBody, JSValue.toNumber_abc]
  rfl

/-- C4: for every model of the table (whatever its operations would answer or raise),
every table state and every id, a pay request whose `amount` is missing or `<= 0`
answers 400 with `{ message: "Invalid amount" }` and returns the table as it was; the
model is not consulted, so the 400 comes before any 404 or 500. -/
theorem putStudentPay_invalid_amount {σ : Type} (M : StudentModel σ) (id : Nat) (body : JSValue)
    (st : σ)
    (h : body.getProp "amount" = JSValue.undefined ∨
      ∃ n, (body.getProp "amount").toNumber = Except.ok n ∧ n.le (JSNumber.fin 0) = true) :
    putStudentPay M id body st = some (⟨400, Body.message "Invalid amount"⟩, st) := by
  apply putStudentPay_rejected
  rcases h with h | h
  · left
    rw [h]
    rfl
  · right
    exact h

/-- Paying 0 on the unknown key 7 of the empty table answers 400, not 404; so does a
body without `amount`. -/
theorem putStudentPay_invalid_amount_witness :
    (∃ n, (JSValue.toNumber ((amountBody (JSValue.number (JSNumber.fin 0))).getProp "amount")) =
        Except.ok n ∧ n.le (JSNumber.fin 0) = true) ∧
    putStudentPay Store.model 7 (amountBody (JSValue.number (JSNumber.fin 0))) emptyStore =
      some (⟨400, Body.message "Invalid amount"⟩, emptyStore) ∧
    putStudentPay Store.model 7 (JSValue.object []) emptyStore =
      some (⟨400, Body.message "Invalid amount"⟩, emptyStore) :=
  have h0 : ∃ n, (JSValue.toNumber ((amountBody (JSValue.number (JSNumber.fin 0))).getProp
      "amount")) = Except.ok n ∧ n.le (JSNumber.fin 0) = true := by
    refine ⟨JSNumber.fin 0, ?_, ?_⟩
    · rw [getProp_amountBody]
      rfl
    · simp [JSNumber.le]
  ⟨h0, putStudentPay_invalid_amount Store.model 7 _ emptyStore (Or.inr h0),
    putStudentPay_invalid_amount Store.model 7 (JSValue.object []) emptyStore (Or.inl rfl)⟩

/-- C5: for every model of the table and every table state, a `POST /student` whose
`name` or `fees` is absent or falsy answers 400 with
`{ message: "Missing name or fees" }` and returns the table as it was; `0`, the empty
string, `null` and `undefined` are falsy, and an absent property reads as `undefined`. -/
theorem postStudent_missing_name_or_fees :
    (∀ {σ : Type} (M : StudentModel σ) (body : JSValue) (st : σ),
      (body.getProp "name").truthy = false ∨ (body.getProp "fees").truthy = false →
      postStudent M body st = (⟨400, Body.message "Missing name or fees"⟩, st)) ∧
    (JSValue.number (JSNumber.fin 0)).truthy = false ∧ (JSValue.string "").truthy = false ∧
    JSValue.null.truthy = false ∧ JSValue.undefined.truthy = false ∧
    (∀ (fields : List (String × JSValue)) (key : String),
      (∀ kv ∈ fields, kv.1 ≠ key) → (JSValue.object fields).getProp key = JSValue.undefined) := by
  refine ⟨?_, by simp [JSValue.truthy, JSNumber.truthy], by decide, rfl, rfl, ?_⟩
  · intro σ M body st h
    exact postStudent_rejected M body st h
  · intro fields key h
    have hl : fields.lookup key = none := by
      induction fields with
      | nil => rfl
      | cons kv rest ih =>
        obtain ⟨k, v⟩ := kv
        have hk : (key == k) = false := by
          have hne : k ≠ key := h (k, v) (List.mem_cons_self _ _)
          exact beq_false_of_ne (Ne.symm hne)
        rw [List.lookup_cons, hk]
        exact ih (fun kv hkv => h kv (List.mem_cons_of_mem _ hkv))
    simp [JSValue.getProp, hl]

/-- Posting `{ name: "Alice", fees: 0 }`, or a body without `fees`, answers 400 and
creates no row. -/
theorem postStudent_missing_name_or_fees_witness :
    postStudent Store.model
        (JSValue.object [("name", JSValue.string "Alice"), ("fees", JSValue.number (JSNumber.fin 0))])
        emptyStore = (⟨400, Body.message "Missing name or fees"⟩, emptyStore) ∧
    postStudent Store.model (JSValue.object [("name", JSValue.string "Alice")]) emptyStore =
      (⟨400, Body.message "Missing name or fees"⟩, emptyStore) :=
  ⟨postStudent_missing_name_or_fees.1 Store.model _ emptyStore
      (Or.inr (by
        show (JSValue.number (JSNumber.fin 0)).truthy = false
        simp [JSValue.truthy, JSNumber.truthy])),
    postStudent_missing_name_or_fees.1 Store.model _ emptyStore (Or.inr (by decide))⟩

/-- C6: on every table and for every id that is the primary key of no stored row, a
pay request whose `amount` converts to a number `> 0` answers 404 with
`{ message: "Student not found" }` and leaves the table as it was. -/
theorem putStudentPay_unknown_id (st : Store) (id : Nat) (body : JSValue) (n : JSNumber)
    (hid : ∀ r ∈ st.rows, r.id ≠ id)
    (_hp : (body.getProp "amount").isParsed = true)
    (hn : (body.getProp "amount").toNumber = Except.ok n)
    (hpos : JSNumber.lt (JSNumber.fin 0) n = true) :
    putStudentPay Store.model id body st =
      some (⟨404, Body.message "Student not found"⟩, st) := by
  have hl : st.lookup id = none := (Store.lookup_eq_none_iff st id).2 hid
  unfold putStudentPay
  simp only [JSValue.truthy_of_toNumber_pos hn hpos, hn, JSNumber.not_le_zero_of_pos hpos,
    Store.model, hl]
  rfl

/-- Paying 200 on key 2 when only Alice (key 1) is stored answers 404 and changes
nothing. -/
theorem putStudentPay_unknown_id_witness :
    (∀ r ∈ [alice (JSNumber.fin 0)], r.id ≠ 2) ∧
    ((amountBody (JSValue.number (JSNumber.fin 200))).getProp "amount").isParsed = true ∧
    JSValue.toNumber ((amountBody (JSValue.number (JSNumber.fin 200))).getProp "amount") =
      Except.ok (JSNumber.fin 200) ∧
    JSNumber.lt (JSNumber.fin 0) (JSNumber.fin 200) = true ∧
    putStudentPay Store.model 2 (amountBody (JSValue.number (JSNumber.fin 200)))
        { rows := [alice (JSNumber.fin 0)], nextId := 2 } =
      some (⟨404, Body.message "Student not found"⟩,
        { rows := [alice (JSNumber.fin 0)], nextId := 2 }) :=
  have hid : ∀ r ∈ [alice (JSNumber.fin 0)], r.id ≠ 2 := by
    intro r hr
    rw [List.mem_singleton] at hr
    rw [hr]
    decide
  have hp : ((amountBody (JSValue.number (JSNumber.fin 200))).getProp "amount").isParsed
      = true := by
    rw [getProp_amountBody]
    exact isDouble_examples.2.2.2.1
  have hn : JSValue.toNumber ((amountBody (JSValue.number (JSNumber.fin 200))).getProp "amount")
      = Except.ok (JSNumber.fin 200) := by
    rw [getProp_amountBody]
    rfl
  have hpos : JSNumber.lt (JSNumber.fin 0) (JSNumber.fin 200) = true := by simp [JSNumber.lt]
  ⟨hid, hp, hn, hpos,
    putStudentPay_unknown_id { rows := [alice (JSNumber.fin 0)], nextId := 2 } 2 _ _ hid hp hn
      hpos⟩

/-- C7: on every table and for every id, `GET /student/:id` answers 404 with
`{ message: "Student not found" }` exactly when no stored row has that primary key;
when some row has it, the answer is 200 and the body is a stored row with that key,
the one the lookup returns; in both cases the table is returned as it was. -/
theorem getStudentById_found_iff (st : Store) (id : Nat) :
    ((getStudentById Store.model id st).1 = ⟨404, Body.message "Student not found"⟩ ↔
      ∀ r ∈ st.rows, r.id ≠ id) ∧
    ((∃ r ∈ st.rows, r.id = id) →
      ∃ s ∈ st.rows, s.id = id ∧ st.lookup id = some s ∧
        (getStudentById Store.model id st).1 = ⟨200, Body.student s⟩) ∧
    (getStudentById Store.model id st).2 = st := by
  rw [← Store.lookup_eq_none_iff]
  cases hl : st.lookup id with
  | none =>
    have hr : getStudentById Store.model id st = (⟨404, Body.message "Student not found"⟩, st) := by
      unfold getStudentById
      simp only [Store.model, hl]
    refine ⟨by simp [hr], ?_, by rw [hr]⟩
    rintro ⟨r, hr1, hr2⟩
    exact absurd hr2 ((Store.lookup_eq_none_iff st id).1 hl r hr1)
  | some s =>
    have hr : getStudentById Store.model id st = (⟨200, Body.student s⟩, st) := by
      unfold getStudentById
      simp only [Store.model, hl]
    refine ⟨by simp [hr], ?_, by rw [hr]⟩
    intro _
    exact ⟨s, Store.lookup_mem hl, Store.lookup_id hl, rfl, by rw [hr]⟩

/-- With only Alice stored under key 1, `GET /student/1` answers 200 with her row and
`GET /student/2` answers 404. -/
theorem getStudentById_found_iff_witness :
    (getStudentById Store.model 1 { rows := [alice (JSNumber.fin 0)], nextId := 2 }).1 =
      ⟨200, Body.student (alice (JSNumber.fin 0))⟩ ∧
    (getStudentById Store.model 2 { rows := [alice (JSNumber.fin 0)], nextId := 2 }).1 =
      ⟨404, Body.message "Student not found"⟩ := by
  constructor
  · obtain ⟨s, _, _, hs, h⟩ :=
      (getStudentById_found_iff { rows := [alice (JSNumber.fin 0)], nextId := 2 } 1).2.1
        ⟨alice (JSNumber.fin 0), List.mem_singleton.2 rfl, rfl⟩
    have : s = alice (JSNumber.fin 0) := by
      have h0 : Store.lookup { rows := [alice (JSNumber.fin 0)], nextId := 2 } 1
          = some (alice (JSNumber.fin 0)) := rfl
      rw [h0] at hs
      exact (Option.some.inj hs).symm
    rw [h, this]
  · apply (getStudentById_found_iff { rows := [alice (JSNumber.fin 0)], nextId := 2 } 2).1.2
    intro r hr
    rw [List.mem_singleton] at hr
    rw [hr]
    decide

/-- C8 on the requests `POST /student { name: "Alice", fees: 1000 }`,
`PUT /student/1/pay { amount: 500 }`, `PUT /student/1/pay { amount: "abc" }`,
`PUT /student/1/pay { amount: 100 }` served on the empty table: after the first two
Alice has `feePaid` 500; the third is answered 200 and stores `NaN`; the fourth is
answered 200 and leaves her with `feePaid` 100, which is below 500. -/
theorem serve_feePaid_drops :
    serve Store.model
        [Request.postStudent aliceBody,
         Request.putStudentPay 1 (amountBody (JSValue.number (JSNumber.fin 500)))]
        emptyStore = { rows := [alice (JSNumber.fin 500)], nextId := 2 } ∧
    handle Store.model (Request.putStudentPay 1 (amountBody (JSValue.string "abc")))
        { rows := [alice (JSNumber.fin 500)], nextId := 2 } =
      some (⟨200, Body.student (alice JSNumber.nan)⟩,
        { rows := [alice JSNumber.nan], nextId := 2 }) ∧
    handle Store.model (Request.putStudentPay 1 (amountBody (JSValue.number (JSNumber.fin 100))))
        { rows := [alice JSNumber.nan], nextId := 2 } =
      some (⟨200, Body.student (alice (JSNumber.fin 100))⟩,
        { rows := [alice (JSNumber.fin 100)], nextId := 2 }) ∧
    serve Store.model
        [Request.postStudent aliceBody,
         Request.putStudentPay 1 (amountBody (JSValue.number (JSNumber.fin 500))),
         Request.putStudentPay 1 (amountBody (JSValue.string "abc")),
         Request.putStudentPay 1 (amountBody (JSValue.number (JSNumber.fin 100)))]
        emptyStore = { rows := [alice (JSNumber.fin 100)], nextId := 2 } ∧
    JSNumber.lt (JSNumber.fin 100) (JSNumber.fin 500) = true := by
  have h500 : JSNumber.lt (JSNumber.fin 0) (JSNumber.fin 500) = true := by simp [JSNumber.lt]
  have h100 : JSNumber.lt (JSNumber.fin 0) (JSNumber.fin 100) = true := by simp [JSNumber.lt]
  have s2 := pay_alice (JSNumber.fin 0) (JSNumber.fin 500) 2 h500
  rw [alice_zero_add _ isDouble_examples.2.2.2.2.2.1] at s2
  have s3 := pay_alice_abc (JSNumber.fin 500) 2
  have s4 := pay_alice JSNumber.nan (JSNumber.fin 100) 2 h100
  rw [alice_nan_add _ isDouble_examples.2.2.1] at s4
  refine ⟨?_, s3, s4, ?_, by simp only [JSNumber.lt]; norm_num⟩
  · simp only [serve, handle, post_alice, s2]
  · simp only [serve, handle, post_alice, s2, s3, s4]


/-- C9, as stated, after `POST /student { name: "Alice", fees: "abc" }` on the empty
table: the request is answered 201 with the created student, whose `fees` is `"abc"`;
the listing is then an array of length 1 whose element has `fees` `NaN`, so it is not
the created student as the request returned it. -/
theorem getStudents_lists_column_values :
    ∃ st1 : Store,
      postStudent Store.model aliceAbcBody emptyStore =
        (⟨201, Body.student aliceAbcCreated⟩, st1) ∧
      getStudents Store.model st1 = (⟨200, Body.students [aliceAbcStored]⟩, st1) ∧
      [aliceAbcStored].length = 1 ∧ aliceAbcStored ≠ aliceAbcCreated := by
  obtain ⟨_, _, st1, hpost, _, hrows, _, hne⟩ := postStudent_stores_column_value_aux
  refine ⟨st1, hpost, ?_, rfl, ?_⟩
  · unfold getStudents
    simp only [Store.model, hrows]
  · intro h
    exact hne (congrArg Student.fees h)

/-- C9, amended: on every table `GET /students` answers 200 with the array of the
stored rows, in storage order, and returns the table as it was. After one successful
`POST /student` on an empty table the array has length 1 and its element is the
stored row of the created student: it has the key and the `feePaid` of the student
the request returned, and its `name` and `fees` are what the STRING and FLOAT columns
hold for the given values; it is the created student itself when `name` is a string
and `fees` is a number, and for such a body the request is successful. -/
theorem getStudents_lists_rows :
    (∀ st : Store, getStudents Store.model st = (⟨200, Body.students st.rows⟩, st)) ∧
    (∀ (st st1 : Store) (body : JSValue) (created : Student),
      st.rows = [] →
      (body.getProp "name").isParsed = true → (body.getProp "fees").isParsed = true →
      postStudent Store.model body st = (⟨201, Body.student created⟩, st1) →
      ∃ row : Student,
        getStudents Store.model st1 = (⟨200, Body.students [row]⟩, st1) ∧
        [row].length = 1 ∧ row.id = created.id ∧ row.feePaid = created.feePaid ∧
        st.stringColumn created.name = Except.ok row.name ∧
        st.floatColumn created.fees = Except.ok row.fees ∧
        ((∃ s, created.name = JSValue.string s) → (∃ n, created.fees = JSValue.number n) →
          row = created)) ∧
    (∀ (st : Store) (body : JSValue) (s : String) (n : JSNumber),
      st.rows = [] → body.getProp "name" = JSValue.string s →
      body.getProp "fees" = JSValue.number n →
      (body.getProp "name").truthy = true → (body.getProp "fees").truthy = true →
      ∃ created : Student,
        postStudent Store.model body st = (⟨201, Body.student created⟩, st.insert created) ∧
        getStudents Store.model (st.insert created) =
          (⟨200, Body.students [created]⟩, st.insert created)) := by
  refine ⟨fun st => rfl, ?_, ?_⟩
  · intro st st1 body created hempty _ _ hpost
    obtain ⟨_, _, hc⟩ := postStudent_created_inv Store.model body st st1 created hpost
    obtain ⟨hcreated, sn, sf, hsn, hsf, hst1⟩ := Store.create_ok_inv hc
    have hrows : st1.rows =
        [{ id := st.nextId, name := sn, fees := sf, feePaid := some (JSNumber.fin 0) }] := by
      rw [hst1]
      simp [Store.insert, hempty]
    refine ⟨{ id := st.nextId, name := sn, fees := sf, feePaid := some (JSNumber.fin 0) },
      ?_, rfl, by rw [hcreated]; rfl, by rw [hcreated]; rfl, by rw [hcreated]; exact hsn,
      by rw [hcreated]; exact hsf, ?_⟩
    · unfold getStudents
      simp only [Store.model, hrows]
    · rintro ⟨s, hs⟩ ⟨n, hnum⟩
      rw [hcreated] at hs hnum
      have hs2 : body.getProp "name" = JSValue.string s := hs
      have hn2 : body.getProp "fees" = JSValue.number n := hnum
      rw [hs2] at hsn
      rw [hn2, Store.floatColumn_number] at hsf
      simp only [Store.stringColumn, Except.ok.injEq] at hsn
      simp only [Except.ok.injEq] at hsf
      rw [hcreated, ← hsn, ← hsf, hs2, hn2]
      rfl
  · intro st body s n hempty hs hnum hn hf
    have hc : Store.model.create (body.getProp "name") (body.getProp "fees") (JSNumber.fin 0) st
        = Except.ok (st.newRow (JSValue.string s) (JSValue.number n) (JSNumber.fin 0),
            st.insert (st.newRow (JSValue.string s) (JSValue.number n) (JSNumber.fin 0))) := by
      rw [hs, hnum]
      exact Store.create_typed st s n (JSNumber.fin 0)
    refine ⟨_, postStudent_of_create_ok Store.model body st _ _ hn hf hc, ?_⟩
    unfold getStudents
    simp [Store.model, Store.insert, hempty]

/-- After Alice is created on the empty table, the listing is the array holding her
row. -/
theorem getStudents_lists_rows_witness :
    emptyStore.rows = [] ∧
    (aliceBody.getProp "name").isParsed = true ∧ (aliceBody.getProp "fees").isParsed = true ∧
    postStudent Store.model aliceBody emptyStore =
      (⟨201, Body.student (alice (JSNumber.fin 0))⟩,
        { rows := [alice (JSNumber.fin 0)], nextId := 2 }) ∧
    getStudents Store.model { rows := [alice (JSNumber.fin 0)], nextId := 2 } =
      (⟨200, Body.students [alice (JSNumber.fin 0)]⟩,
        { rows := [alice (JSNumber.fin 0)], nextId := 2 }) := by
  have hp : (aliceBody.getProp "fees").isParsed = true := by
    show (JSNumber.fin 1000).isDouble = true
    decide!
  obtain ⟨row, hget, _, _, _, _, _, hsame⟩ :=
    getStudents_lists_rows.2.1 emptyStore _ aliceBody (alice (JSNumber.fin 0)) rfl rfl hp
      post_alice
  have hrow : row = alice (JSNumber.fin 0) := hsame ⟨"Alice", rfl⟩ ⟨JSNumber.fin 1000, rfl⟩
  rw [hrow] at hget
  exact ⟨rfl, rfl, hp, post_alice, hget⟩


/-- C10: for every model of the table and every table state, each handler answers a
persistence call that raises with message `m` by status 500 and body `{ error: m }`
(`findAll` in the listing, `findByPk` in the lookup and in the payment, `create` in
the creation, `save` in the payment), and answers a validation failure by 400 or 404
with a `{ message: text }` body. A request is left without a response only when it
is a payment whose truthy `amount` makes `Number(amount)` throw, which is no
persistence exception; every other request gets a response. The status of a response
is one of 200, 201, 400, 404, 500, a 400 or 404 body has the form
`{ message: text }`, and a 500 body is `{ error: m }` for a message `m` that a
persistence operation raised. -/
theorem handlers_error_contract {σ : Type} (M : StudentModel σ) (st : σ) :
    (∀ m, M.findAll st = Except.error m → getStudents M st = (⟨500, Body.error m⟩, st)) ∧
    (∀ id m, M.findByPk id st = Except.error m →
      getStudentById M id st = (⟨500, Body.error m⟩, st)) ∧
    (∀ body m, (body.getProp "name").truthy = true → (body.getProp "fees").truthy = true →
      M.create (body.getProp "name") (body.getProp "fees") (JSNumber.fin 0) st = Except.error m →
      postStudent M body st = (⟨500, Body.error m⟩, st)) ∧
    (∀ id body n m, (body.getProp "amount").isParsed = true →
      (body.getProp "amount").truthy = true →
      (body.getProp "amount").toNumber = Except.ok n → n.le (JSNumber.fin 0) = false →
      M.findByPk id st = Except.error m →
      putStudentPay M id body st = some (⟨500, Body.error m⟩, st)) ∧
    (∀ id body n s m, (body.getProp "amount").isParsed = true →
      (body.getProp "amount").truthy = true →
      (body.getProp "amount").toNumber = Except.ok n → n.le (JSNumber.fin 0) = false →
      M.findByPk id st = Except.ok (some s) →
      M.save { s with feePaid := some (s.feePaidOrZero.add n) } st = Except.error m →
      putStudentPay M id body st = some (⟨500, Body.error m⟩, st)) ∧
    (∀ body, (body.getProp "name").truthy = false ∨ (body.getProp "fees").truthy = false →
      postStudent M body st = (⟨400, Body.message "Missing name or fees"⟩, st)) ∧
    (∀ id body, (body.getProp "amount").truthy = false ∨
        (∃ n, (body.getProp "amount").toNumber = Except.ok n ∧ n.le (JSNumber.fin 0) = true) →
      putStudentPay M id body st = some (⟨400, Body.message "Invalid amount"⟩, st)) ∧
    (∀ id, M.findByPk id st = Except.ok none →
      getStudentById M id st = (⟨404, Body.message "Student not found"⟩, st)) ∧
    (∀ id body n, (body.getProp "amount").isParsed = true →
      (body.getProp "amount").truthy = true →
      (body.getProp "amount").toNumber = Except.ok n → n.le (JSNumber.fin 0) = false →
      M.findByPk id st = Except.ok none →
      putStudentPay M id body st = some (⟨404, Body.message "Student not found"⟩, st)) ∧
    (∀ req : Request,
      (handle M req st = none ↔
        ∃ id body m, req = Request.putStudentPay id body ∧
          (body.getProp "amount").truthy = true ∧
          (body.getProp "amount").toNumber = Except.error m) ∧
      (∀ (r : Response) (st1 : σ), handle M req st = some (r, st1) →
        r.status ∈ [200, 201, 400, 404, 500] ∧
        (r.status = 400 ∨ r.status = 404 → ∃ text, r.body = Body.message text) ∧
        (r.status = 500 →
          ∃ m, r.body = Body.error m ∧
            (M.findAll st = Except.error m ∨ (∃ id, M.findByPk id st = Except.error m) ∨
              (∃ name fees, M.create name fees (JSNumber.fin 0) st = Except.error m) ∨
              (∃ s, M.save s st = Except.error m))))) := by
  refine ⟨?_, ?_, ?_, ?_, ?_, ?_, ?_, ?_, ?_, ?_⟩
  · intro m h
    simp only [getStudents, h]
  · intro id m h
    simp only [getStudentById, h]
  · intro body m hn hf h
    exact postStudent_of_create_error M body st m hn hf h
  · intro id body n m _ ht hn hle h
    exact putStudentPay_find_error M id body st n m ht hn hle h
  · intro id body n s m _ ht hn hle hfind h
    rw [putStudentPay_save M id body st n s ht hn hle hfind, h]
  · intro body h
    exact postStudent_rejected M body st h
  · intro id body h
    exact putStudentPay_rejected M id body st h
  · intro id h
    simp only [getStudentById, h]
  · intro id body n _ ht hn hle h
    exact putStudentPay_unknown M id body st n ht hn hle h
  · intro req
    cases req with
    | getStudents =>
      refine ⟨by simp [handle], ?_⟩
      intro r st1 h
      simp only [handle, getStudents, Option.some.injEq] at h
      cases hf : M.findAll st with
      | error m =>
        simp only [hf, Prod.mk.injEq] at h
        rw [← h.1]
        exact ⟨by simp, by simp, fun _ => ⟨m, rfl, Or.inl rfl⟩⟩
      | ok rows =>
        simp only [hf, Prod.mk.injEq] at h
        rw [← h.1]
        simp
    | getStudentById id =>
      refine ⟨by simp [handle], ?_⟩
      intro r st1 h
      simp only [handle, getStudentById, Option.some.injEq] at h
      cases hf : M.findByPk id st with
      | error m =>
        simp only [hf, Prod.mk.injEq] at h
        rw [← h.1]
        exact ⟨by simp, by simp, fun _ => ⟨m, rfl, Or.inr (Or.inl ⟨id, hf⟩)⟩⟩
      | ok found =>
        cases found with
        | none =>
          simp only [hf, Prod.mk.injEq] at h
          rw [← h.1]
          simp
        | some s =>
          simp only [hf, Prod.mk.injEq] at h
          rw [← h.1]
          simp
    | postStudent body =>
      refine ⟨by simp [handle], ?_⟩
      intro r st1 h
      simp only [handle, Option.some.injEq] at h
      by_cases hv : (body.getProp "name").truthy = false ∨ (body.getProp "fees").truthy = false
      · rw [postStudent_rejected M body st hv] at h
        simp only [Prod.mk.injEq] at h
        rw [← h.1]
        simp
      · simp only [not_or, Bool.not_eq_false] at hv
        cases hc : M.create (body.getProp "name") (body.getProp "fees") (JSNumber.fin 0) st with
        | error m =>
          rw [postStudent_of_create_error M body st m hv.1 hv.2 hc] at h
          simp only [Prod.mk.injEq] at h
          rw [← h.1]
          exact ⟨by simp, by simp, fun _ => ⟨m, rfl, Or.inr (Or.inr (Or.inl ⟨_, _, hc⟩))⟩⟩
        | ok res =>
          obtain ⟨c, s1⟩ := res
          rw [postStudent_of_create_ok M body st s1 c hv.1 hv.2 hc] at h
          simp only [Prod.mk.injEq] at h
          rw [← h.1]
          simp
    | putStudentPay id body =>
      simp only [handle]
      cases ht : (body.getProp "amount").truthy with
      | false =>
        rw [putStudentPay_rejected M id body st (Or.inl ht)]
        refine ⟨by simp [ht], ?_⟩
        intro r st1 h
        simp only [Option.some.injEq, Prod.mk.injEq] at h
        rw [← h.1]
        simp
      | true =>
        cases hn : (body.getProp "amount").toNumber with
        | error m0 =>
          rw [putStudentPay_throws M id body st m0 ht hn]
          refine ⟨⟨fun _ => ⟨id, body, m0, rfl, ht, hn⟩, fun _ => rfl⟩, ?_⟩
          intro r st1 h
          simp at h
        | ok n =>
          have hnone : ¬ ∃ id1 body1 m, Request.putStudentPay id body =
              Request.putStudentPay id1 body1 ∧ (body1.getProp "amount").truthy = true ∧
              (body1.getProp "amount").toNumber = Except.error m := by
            rintro ⟨id1, body1, m, heq, _, herr⟩
            simp only [Request.putStudentPay.injEq] at heq
            rw [← heq.2, hn] at herr
            simp at herr
          cases hle : n.le (JSNumber.fin 0) with
          | true =>
            rw [putStudentPay_rejected M id body st (Or.inr ⟨n, hn, hle⟩)]
            refine ⟨⟨fun h0 => by simp at h0, fun h0 => absurd h0 hnone⟩, ?_⟩
            intro r st1 h
            simp only [Option.some.injEq, Prod.mk.injEq] at h
            rw [← h.1]
            simp
          | false =>
            cases hf : M.findByPk id st with
            | error m =>
              rw [putStudentPay_find_error M id body st n m ht hn hle hf]
              refine ⟨⟨fun h0 => by simp at h0, fun h0 => absurd h0 hnone⟩, ?_⟩
              intro r st1 h
              simp only [Option.some.injEq, Prod.mk.injEq] at h
              rw [← h.1]
              exact ⟨by simp, by simp, fun _ => ⟨m, rfl, Or.inr (Or.inl ⟨id, hf⟩)⟩⟩
            | ok found =>
              cases found with
              | none =>
                rw [putStudentPay_unknown M id body st n ht hn hle hf]
                refine ⟨⟨fun h0 => by simp at h0, fun h0 => absurd h0 hnone⟩, ?_⟩
                intro r st1 h
                simp only [Option.some.injEq, Prod.mk.injEq] at h
                rw [← h.1]
                simp
              | some s =>
                rw [putStudentPay_save M id body st n s ht hn hle hf]
                cases hs : M.save { s with feePaid := some (s.feePaidOrZero.add n) } st with
                | error m =>
                  refine ⟨⟨fun h0 => by simp at h0, fun h0 => absurd h0 hnone⟩, ?_⟩
                  intro r st1 h
                  simp only [Option.some.injEq, Prod.mk.injEq] at h
                  rw [← h.1]
                  exact ⟨by simp, by simp,
                    fun _ => ⟨m, rfl, Or.inr (Or.inr (Or.inr ⟨_, hs⟩))⟩⟩
                | ok s1 =>
                  refine ⟨⟨fun h0 => by simp at h0, fun h0 => absurd h0 hnone⟩, ?_⟩
                  intro r st1 h
                  simp only [Option.some.injEq, Prod.mk.injEq] at h
                  rw [← h.1]
                  simp

/-- With the database down every route answers 500 `{ error: "connection lost" }`
(the creation and the payment once their bodies pass validation), and when only
`save` raises, a payment on Alice answers 500 `{ error: "disk full" }` and leaves her
row as it was. -/
theorem handlers_error_contract_witness :
    getStudents (Store.model.withFaults connectionLost) emptyStore =
      (⟨500, Body.error "connection lost"⟩, emptyStore) ∧
    getStudentById (Store.model.withFaults connectionLost) 1 emptyStore =
      (⟨500, Body.error "connection lost"⟩, emptyStore) ∧
    postStudent (Store.model.withFaults connectionLost) aliceBody emptyStore =
      (⟨500, Body.error "connection lost"⟩, emptyStore) ∧
    putStudentPay (Store.model.withFaults connectionLost) 1
        (amountBody (JSValue.number (JSNumber.fin 200))) emptyStore =
      some (⟨500, Body.error "connection lost"⟩, emptyStore) ∧
    putStudentPay (Store.model.withFaults diskFull) 1
        (amountBody (JSValue.number (JSNumber.fin 200)))
        { rows := [alice (JSNumber.fin 0)], nextId := 2 } =
      some (⟨500, Body.error "disk full"⟩,
        { rows := [alice (JSNumber.fin 0)], nextId := 2 }) := by
  have hp : ((amountBody (JSValue.number (JSNumber.fin 200))).getProp "amount").isParsed
      = true := by
    rw [getProp_amountBody]
    exact isDouble_examples.2.2.2.1
  have ht : ((amountBody (JSValue.number (JSNumber.fin 200))).getProp "amount").truthy = true := by
    rw [getProp_amountBody]
    simp [JSValue.truthy, JSNumber.truthy]
  have hn : JSValue.toNumber ((amountBody (JSValue.number (JSNumber.fin 200))).getProp "amount")
      = Except.ok (JSNumber.fin 200) := by
    rw [getProp_amountBody]
    rfl
  have hle : (JSNumber.fin 200).le (JSNumber.fin 0) = false := by simp [JSNumber.le]
  have hc := handlers_error_contract (Store.model.withFaults connectionLost) emptyStore
  have hd := handlers_error_contract (Store.model.withFaults diskFull)
    { rows := [alice (JSNumber.fin 0)], nextId := 2 }
  exact ⟨hc.1 _ rfl, hc.2.1 1 _ rfl,
    hc.2.2.1 aliceBody _ aliceBody_props.2.2.1 aliceBody_props.2.2.2 rfl,
    hc.2.2.2.1 1 _ _ _ hp ht hn hle rfl,
    hd.2.2.2.2.1 1 _ _ (alice (JSNumber.fin 0)) _ hp ht hn hle rfl rfl⟩


/-- C11: on every table, when `PUT /student/:id/pay` is answered 200 with the row
`paid`, the table afterwards is the table before with `feePaid` of the rows under that
id set to `paid.feePaid` and nothing else touched: the auto-increment counter and the
number of rows are the same, the row at each position keeps its id, name and fees,
and a row under another id is the same row as before. -/
theorem putStudentPay_frame (st st1 : Store) (id : Nat) (body : JSValue) (r : Response)
    (hr : putStudentPay Store.model id body st = some (r, st1)) (h : r.status = 200) :
    ∃ paid : Student,
      r.body = Body.student paid ∧
      st1.rows =
        st.rows.map (fun r => if r.id = id then { r with feePaid := paid.feePaid } else r) ∧
      st1.nextId = st.nextId ∧
      st1.rows.length = st.rows.length ∧
      (∀ (i : Nat) (r : Student), st.rows[i]? = some r →
        ∃ r1, st1.rows[i]? = some r1 ∧
          r1.id = r.id ∧ r1.name = r.name ∧ r1.fees = r.fees ∧ (r.id ≠ id → r1 = r)) ∧
      (∀ (i : Nat), st.rows[i]? = none → st1.rows[i]? = none) := by
  obtain ⟨s, n, hs, hresp, hst1⟩ := putStudentPay_status_200 st st1 id body r hr h
  have hid : s.id = id := Store.lookup_id hs
  have hrows : st1.rows =
      st.rows.map (fun r => if r.id = id then
        { r with feePaid := some (s.feePaidOrZero.add n) } else r) := by
    rw [hst1]
    simp only [Store.update, hid, beq_iff_eq]
  refine ⟨{ s with feePaid := some (s.feePaidOrZero.add n) }, by rw [hresp], hrows,
    by rw [hst1]; rfl, ?_, ?_, ?_⟩
  · rw [hrows, List.length_map]
  · intro i r hi
    rw [hrows, List.getElem?_map, hi]
    by_cases hrid : r.id = id
    · refine ⟨{ r with feePaid := some (s.feePaidOrZero.add n) }, ?_, rfl,
        rfl, rfl, fun hne => absurd hrid hne⟩
      simp only [Option.map_some', hrid, if_true]
    · exact ⟨r, by simp only [Option.map_some', hrid, if_false], rfl, rfl, rfl, fun _ => rfl⟩
  · intro i hi
    rw [hrows, List.getElem?_map, hi]
    rfl

/-- With Alice under key 1 and Bob under key 2, paying 200 on key 1 is answered 200
and the table keeps two rows, Bob's untouched. -/
theorem putStudentPay_frame_witness :
    ∃ (r : Response) (st1 : Store),
      putStudentPay Store.model 1 (amountBody (JSValue.number (JSNumber.fin 200)))
        { rows := [alice (JSNumber.fin 0), bob], nextId := 3 } = some (r, st1) ∧
      r.status = 200 ∧
      ∃ paid : Student,
        st1.rows = [alice (JSNumber.fin 0), bob].map
          (fun r => if r.id = 1 then { r with feePaid := paid.feePaid } else r) ∧
        st1.rows[1]? = some bob := by
  have hst := putStudentPay_ok { rows := [alice (JSNumber.fin 0), bob], nextId := 3 } 1
      (alice (JSNumber.fin 0)) (amountBody (JSValue.number (JSNumber.fin 200)))
      (JSNumber.fin 200) rfl (getProp_amountBody _) (by simp [JSNumber.lt])
  obtain ⟨paid, _, hrows, _, _, hkeep, _⟩ :=
    putStudentPay_frame { rows := [alice (JSNumber.fin 0), bob], nextId := 3 } _ 1
      (amountBody (JSValue.number (JSNumber.fin 200))) _ hst rfl
  obtain ⟨r1, h1, _, _, _, hsame⟩ := hkeep 1 bob rfl
  refine ⟨_, _, hst, rfl, paid, hrows, ?_⟩
  rw [h1, hsame (by decide)]


end SchoolFees
